import Mathlib

/-!
Verification of the kinect-football motion core (MotionHistory, KickDetector,
KickAnalyzer, HeaderDetector) against its natural-language specification.

Modelling conventions:
* C++ `float` values are modelled as exact rationals (`ℚ`) where the code only
  stores, adds and compares them, and as reals (`ℝ`) where the code takes
  square roots or arc-cosines (`magnitude`, `normalize`, `acos`).
* `uint64_t` timestamps are natural numbers; the wrapping subtraction
  `a - b` on `uint64_t` is modelled exactly by `usub64`.
* Speed *comparisons* in the detector state machine (`speed > c`,
  `speed < c * speed'`) are embedded as the equivalent comparisons of squared
  magnitudes, which keeps the state machine computable; the lemmas
  `sqrt_gt_iff_sq`, `sqrt_lt_iff_sq`, `sqrt_lt_frac_sqrt_iff` and
  `frac_sqrt_lt_sqrt_iff` prove each such rewriting equivalent to the
  source's comparison of `Real.sqrt` magnitudes.
-/

namespace KinectFootball

/-- `k4a_float3_t`: a 3-component vector, components modelled as `ℚ`. -/
structure Vec3 where
  x : ℚ
  y : ℚ
  z : ℚ
deriving DecidableEq, Repr

namespace Vec3

def zero : Vec3 := ⟨0, 0, 0⟩

/-- `MotionHistory::subtract` (the same helper is duplicated in
`KickDetector`/`KickAnalyzer`/`HeaderDetector`). -/
def sub (a b : Vec3) : Vec3 := ⟨a.x - b.x, a.y - b.y, a.z - b.z⟩

/-- `MotionHistory::add`. -/
def add (a b : Vec3) : Vec3 := ⟨a.x + b.x, a.y + b.y, a.z + b.z⟩

/-- `MotionHistory::scale`. -/
def scale (v : Vec3) (s : ℚ) : Vec3 := ⟨v.x * s, v.y * s, v.z * s⟩

/-- Squared euclidean magnitude; `magnitude(v)` in the source is
`Real.sqrt (magSq v)` (see `magR`). -/
def magSq (v : Vec3) : ℚ := v.x * v.x + v.y * v.y + v.z * v.z

/-- `magnitude(v) = sqrt(x*x + y*y + z*z)` as a real value. -/
noncomputable def magR (v : Vec3) : ℝ := Real.sqrt (magSq v)

end Vec3

/-! ## uint64 arithmetic -/

/-- `2^64`, the modulus of `uint64_t`. -/
def U64 : ℕ := 18446744073709551616

/-- The wrapping subtraction `a - b` on `uint64_t` operands (exact for
`a b < U64`). -/
def usub64 (a b : ℕ) : ℕ := (a + (U64 - b % U64)) % U64

/-! ## MotionHistory -/

/-- `JointFrame` (MotionHistory.h): position, derived velocity, timestamp in
microseconds, confidence. -/
structure JointFrame where
  position : Vec3
  velocity : Vec3
  timestamp : ℕ
  confidence : ℚ
deriving DecidableEq, Repr

/-- `MotionHistory::MAX_HISTORY` (30 frames ≈ 1 second at 30fps). -/
def MAX_HISTORY : ℕ := 30

/-- `MotionHistory::MIN_CONFIDENCE` (0.5). -/
def MIN_CONFIDENCE : ℚ := 1 / 2

/-- The `std::deque<JointFrame> frames_` of a `MotionHistory`, oldest first. -/
abbrev MotionHistory := List JointFrame

namespace MotionHistory

/-- The empty history (`MotionHistory::MotionHistory`). -/
def empty : MotionHistory := []

/-- `MotionHistory::calculateVelocity`: finite difference of positions over
the elapsed time `(newer.timestamp - older.timestamp) / 1e6` seconds
(`uint64_t` subtraction, hence `usub64`); zero if that elapsed time is not
positive. -/
def calculateVelocity (older newer : JointFrame) : Vec3 :=
  if ((usub64 newer.timestamp older.timestamp : ℕ) : ℚ) / 1000000 ≤ 0 then Vec3.zero
  else (newer.position.sub older.position).scale
    (1 / (((usub64 newer.timestamp older.timestamp : ℕ) : ℚ) / 1000000))

/-- The frame `MotionHistory::addFrame` builds before pushing: velocity is
computed from the previous (most recent) frame when one exists, otherwise it
stays the `JointFrame()` default zero. -/
def nextFrame (h : MotionHistory) (position : Vec3) (timestamp : ℕ)
    (confidence : ℚ) : JointFrame :=
  { position := position
    timestamp := timestamp
    confidence := confidence
    velocity :=
      match List.getLast? h with
      | none => Vec3.zero
      | some prev =>
          calculateVelocity prev
            { position := position, velocity := Vec3.zero,
              timestamp := timestamp, confidence := confidence } }

/-- `MotionHistory::addFrame`: reject low confidence, append the new frame,
evict the oldest frame if the bound `MAX_HISTORY` is exceeded. -/
def addFrame (h : MotionHistory) (position : Vec3) (timestamp : ℕ)
    (confidence : ℚ) : MotionHistory :=
  if confidence < MIN_CONFIDENCE then h
  else if MAX_HISTORY < (h ++ [nextFrame h position timestamp confidence]).length
  then (h ++ [nextFrame h position timestamp confidence]).drop 1
  else h ++ [nextFrame h position timestamp confidence]

/-- `MotionHistory::getCurrentVelocity`: the most recent frame's velocity,
zero when empty. -/
def getCurrentVelocity (h : MotionHistory) : Vec3 :=
  match List.getLast? h with
  | none => Vec3.zero
  | some f => f.velocity

/-- Squared magnitude of the current velocity; the source's
`getCurrentSpeed()` is its square root (`getCurrentSpeedR`). -/
def getCurrentSpeedSq (h : MotionHistory) : ℚ := (getCurrentVelocity h).magSq

/-- `MotionHistory::getCurrentSpeed` as a real value. -/
noncomputable def getCurrentSpeedR (h : MotionHistory) : ℝ :=
  (getCurrentVelocity h).magR

/-- `MotionHistory::getVelocity(framesBack, out)`: bounds-checked lookback at
index `size - 1 - framesBack`; `none` models the `false` return. -/

def getVelocityBack (h : MotionHistory) (framesBack : ℕ) : Option Vec3 :=
  if List.length h ≤ framesBack then none
  else (List.get? h (List.length h - 1 - framesBack)).map JointFrame.velocity

/-- `MotionHistory::getPosition(framesBack, out)`. -/
def getPositionBack (h : MotionHistory) (framesBack : ℕ) : Option Vec3 :=
  if List.length h ≤ framesBack then none
  else (List.get? h (List.length h - 1 - framesBack)).map JointFrame.position

/-- `MotionHistory::hasEnoughData`: at least 3 samples. -/
def hasEnoughData (h : MotionHistory) : Bool := decide (3 ≤ List.length h)

/-- Maximum squared velocity magnitude over the buffer; the source's
`getPeakSpeed()` folds `max` over the (nonnegative) magnitudes, which equals
the square root of this fold since `Real.sqrt` is monotone
(see `getPeakSpeedR_eq_fold`). -/
def getPeakSpeedSq (h : MotionHistory) : ℚ :=
  List.foldl (fun peak f => max peak f.velocity.magSq) 0 h

/-- `MotionHistory::getPeakSpeed` as a real value. -/
noncomputable def getPeakSpeedR (h : MotionHistory) : ℝ :=
  Real.sqrt (getPeakSpeedSq h)

/-- The count the final scaling of `MotionHistory::getAverageVelocity`
divides by (`std::min(numFrames, frames_.size())`), reached exactly when the
empty-history guard does not return early; `none` models the early return. -/
def averageVelocityDivisor (h : MotionHistory) (numFrames : ℕ) : Option ℕ :=
  if List.length h = 0 then none
  else some (min numFrames (List.length h))

/-- `MotionHistory::getAverageVelocity`: zero for an empty history, else the
sum of the last `min numFrames size` velocities scaled by the reciprocal of
that count (in `ℚ`, `1 / 0 = 0` at count `0`, where the C++ float computes
`1.0f / 0.0f = inf`). -/
def getAverageVelocity (h : MotionHistory) (numFrames : ℕ) : Vec3 :=
  if List.length h = 0 then Vec3.zero
  else
    (List.foldl (fun s f => s.add f.velocity) Vec3.zero
      (List.drop (List.length h - min numFrames (List.length h)) h)).scale
      (1 / ((min numFrames (List.length h) : ℕ) : ℚ))

end MotionHistory

/-! ## KickTypes.h enums -/

/-- `KickType` (KickTypes.h). -/
inductive KickType where
  | Instep
  | SideFootPass
  | Outside
  | Toe
  | Volley
  | Header
  | Unknown
deriving DecidableEq, Repr

/-- `KickPhase` (KickTypes.h). -/
inductive KickPhase where
  | Idle
  | WindUp
  | Acceleration
  | Contact
  | FollowThrough
deriving DecidableEq, Repr

/-- `DominantFoot` (KickTypes.h). -/
inductive DominantFoot where
  | Left
  | Right
  | Unknown
deriving DecidableEq, Repr

/-! ## KickDetector -/

namespace KickDetector

/-- `KickDetector::VELOCITY_WINDUP` (m/s). -/
def VELOCITY_WINDUP : ℚ := 1 / 2

/-- `KickDetector::VELOCITY_ACCELERATION` (m/s). -/
def VELOCITY_ACCELERATION : ℚ := 2

/-- `KickDetector::VELOCITY_IDLE` (m/s). -/
def VELOCITY_IDLE : ℚ := 3 / 10

/-- `KickDetector::MIN_WINDUP_TIME` (µs). -/
def MIN_WINDUP_TIME : ℕ := 200000

/-- `KickDetector::MIN_ACCELERATION_TIME` (µs). -/
def MIN_ACCELERATION_TIME : ℕ := 100000

end KickDetector

/-- One tracked joint of a `k4abt_skeleton_t`: position plus the
`confidence_level` the source passes to `MotionHistory::addFrame` as a float
(the k4abt enum has numeric values none=0, low=1, medium=2, high=3). -/
structure Joint where
  position : Vec3
  confidence : ℚ
deriving DecidableEq, Repr

/-- The joints of `k4abt_skeleton_t` the motion core reads. -/
structure Skeleton where
  pelvis : Joint
  hipLeft : Joint
  hipRight : Joint
  kneeLeft : Joint
  kneeRight : Joint
  ankleLeft : Joint
  ankleRight : Joint
  footLeft : Joint
  footRight : Joint
  spineChest : Joint
deriving DecidableEq, Repr

def Joint.zero : Joint := ⟨Vec3.zero, 0⟩

def Skeleton.zero : Skeleton :=
  ⟨Joint.zero, Joint.zero, Joint.zero, Joint.zero, Joint.zero,
   Joint.zero, Joint.zero, Joint.zero, Joint.zero, Joint.zero⟩

/-- The mutable state of a `KickDetector` (KickDetector.h).

`peakVelocitySq` holds the square of the C++ `peakVelocity_`: the state
machine only ever max-tracks and compares this value against other speeds,
and `max`/`<` commute with squaring on nonnegative values, so the squared
tracking is exactly the source's (the real peak is `Real.sqrt peakVelocitySq`).
`kickDirectionRaw` holds the 3-frame average velocity computed at Contact
entry *before* the source's `normalize`; the stored direction is read only
when the completed-kick result is built (where `normalizeR` is applied, see
`deliveredResult`) and by `reset` (where both representations are zero), so
no observable value differs. `callbackSet` models whether
`setKickCallback` has registered a callback (`kickCallback_` non-null). -/
structure KickDetectorState where
  leftAnkleHistory : MotionHistory
  rightAnkleHistory : MotionHistory
  leftFootHistory : MotionHistory
  rightFootHistory : MotionHistory
  leftKneeHistory : MotionHistory
  rightKneeHistory : MotionHistory
  leftHipHistory : MotionHistory
  rightHipHistory : MotionHistory
  pelvisHistory : MotionHistory
  currentPhase : KickPhase
  dominantFoot : DominantFoot
  phaseStartTime : ℕ
  peakVelocitySq : ℚ
  kickDirectionRaw : Vec3
  callbackSet : Bool
  currentSkeleton : Skeleton
  currentTimestamp : ℕ
deriving DecidableEq, Repr

namespace KickDetectorState

/-- `KickDetector::getActiveAnkleHistory`. -/
def getActiveAnkleHistory (st : KickDetectorState) : MotionHistory :=
  if st.dominantFoot = DominantFoot.Left then st.leftAnkleHistory
  else st.rightAnkleHistory

/-- `KickDetector::getActiveFootHistory`. -/
def getActiveFootHistory (st : KickDetectorState) : MotionHistory :=
  if st.dominantFoot = DominantFoot.Left then st.leftFootHistory
  else st.rightFootHistory

end KickDetectorState

namespace KickDetector

open MotionHistory

/-- `KickDetector::detectWindUp`: enough ankle data, ankle speed above
`VELOCITY_WINDUP` (squared comparison, see `sqrt_gt_iff_sq`), velocity
pointing backward (negative Z). -/
def detectWindUp (ankleHistory _footHistory : MotionHistory) : Bool :=
  hasEnoughData ankleHistory &&
    decide (VELOCITY_WINDUP * VELOCITY_WINDUP < getCurrentSpeedSq ankleHistory) &&
    decide ((getCurrentVelocity ankleHistory).z < 0)

/-- `KickDetector::detectAcceleration`: enough foot data, foot speed above
`VELOCITY_ACCELERATION` (squared comparison), velocity forward (positive Z). -/
def detectAcceleration (_ankleHistory footHistory : MotionHistory) : Bool :=
  hasEnoughData footHistory &&
    decide (VELOCITY_ACCELERATION * VELOCITY_ACCELERATION
      < getCurrentSpeedSq footHistory) &&
    decide (0 < (getCurrentVelocity footHistory).z)

/-- Squared speed of the sample one frame back (`previousSpeed` in
`KickDetector::detectContact`); 0 when `getVelocity(1, …)` fails. -/
def previousSpeedSq (footHistory : MotionHistory) : ℚ :=
  match getVelocityBack footHistory 1 with
  | none => 0
  | some v => v.magSq

/-- `KickDetector::detectContact`: sudden deceleration —
`previousSpeed > VELOCITY_ACCELERATION * 0.8 ∧ currentSpeed < previousSpeed * 0.7`,
embedded on squared magnitudes (`(2 * 8/10)^2 = 64/25`; for the ratio see
`sqrt_lt_frac_sqrt_iff`). -/
def detectContact (_ankleHistory footHistory : MotionHistory) : Bool :=
  hasEnoughData footHistory &&
    decide ((VELOCITY_ACCELERATION * (8 / 10)) * (VELOCITY_ACCELERATION * (8 / 10))
      < previousSpeedSq footHistory) &&
    decide (100 * getCurrentSpeedSq footHistory < 49 * previousSpeedSq footHistory)

/-- `KickDetector::detectFollowThrough`: forward motion below
`VELOCITY_ACCELERATION` (squared comparison). -/
def detectFollowThrough (_ankleHistory footHistory : MotionHistory) : Bool :=
  hasEnoughData footHistory &&
    decide (0 < (getCurrentVelocity footHistory).z) &&
    decide (getCurrentSpeedSq footHistory
      < VELOCITY_ACCELERATION * VELOCITY_ACCELERATION)

/-- `KickDetector::updateDominantFoot`: switch sides only when one foot's
current speed exceeds 1.5× the other's (squared comparison, see
`frac_sqrt_lt_sqrt_iff`), else keep the previous value. -/
def updateDominantFoot (st : KickDetectorState) : DominantFoot :=
  let leftSq := getCurrentSpeedSq st.leftFootHistory
  let rightSq := getCurrentSpeedSq st.rightFootHistory
  if 9 * rightSq < 4 * leftSq then DominantFoot.Left
  else if 9 * leftSq < 4 * rightSq then DominantFoot.Right
  else st.dominantFoot

/-- `KickDetector::calculateKickDirection` before its final `normalize`:
the average foot velocity over the last 3 frames (see the
`KickDetectorState` doc comment for where `normalize` is applied). -/
def calculateKickDirectionRaw (st : KickDetectorState) : Vec3 :=
  getAverageVelocity st.getActiveFootHistory 3

/-- `KickDetector::reset`: back to Idle, dominant foot unknown, phase clock
and peak-velocity and direction tracking cleared; histories untouched. -/
def reset (st : KickDetectorState) : KickDetectorState :=
  { st with
    currentPhase := KickPhase.Idle
    dominantFoot := DominantFoot.Unknown
    phaseStartTime := 0
    peakVelocitySq := 0
    kickDirectionRaw := Vec3.zero }

/-- The data `KickDetector::completeKick` reads from the state to build the
`KickResult` handed to the callback (see `deliveredResult` for the built
value). -/
structure KickEvent where
  foot : DominantFoot
  kickDirectionRaw : Vec3
  timestamp : ℕ
  peakVelocitySq : ℚ
deriving DecidableEq, Repr

/-- The state snapshot `completeKick` captures. -/
def mkKickEvent (st : KickDetectorState) : KickEvent :=
  { foot := st.dominantFoot
    kickDirectionRaw := st.kickDirectionRaw
    timestamp := st.currentTimestamp
    peakVelocitySq := st.peakVelocitySq }

/-- `KickDetector::completeKick`: no event when no callback is registered,
otherwise exactly one. -/
def completeKick (st : KickDetectorState) : List KickEvent :=
  if st.callbackSet then [mkKickEvent st] else []

/-- The `case KickPhase::Idle` body of `KickDetector::updatePhase`, applied
to the state after the dominant-foot re-evaluation. -/
def stepIdle (st : KickDetectorState) (timestamp : ℕ) :
    KickDetectorState × List KickEvent :=
  if detectWindUp st.getActiveAnkleHistory st.getActiveFootHistory then
    ({ st with
        currentPhase := KickPhase.WindUp
        phaseStartTime := timestamp
        peakVelocitySq := 0 }, [])
  else (st, [])

/-- The acceleration-transition inner conditional of the WindUp case. -/
def windUpTransition (st : KickDetectorState) (timestamp : ℕ) :
    KickDetectorState :=
  if MIN_WINDUP_TIME ≤ usub64 timestamp st.phaseStartTime
      ∧ detectAcceleration st.getActiveAnkleHistory st.getActiveFootHistory then
    { st with
        currentPhase := KickPhase.Acceleration
        phaseStartTime := timestamp }
  else st

/-- The `case KickPhase::WindUp` body of `KickDetector::updatePhase`: the
acceleration transition is tried first; the 2-second timeout then reads the
(possibly updated) phase start time. -/
def stepWindUp (st : KickDetectorState) (timestamp : ℕ) :
    KickDetectorState × List KickEvent :=
  if 2000000 < usub64 timestamp (windUpTransition st timestamp).phaseStartTime
  then (reset (windUpTransition st timestamp), [])
  else (windUpTransition st timestamp, [])

/-- The peak-velocity tracking at the top of the Acceleration case. -/
def trackPeak (st : KickDetectorState) : KickDetectorState :=
  if st.peakVelocitySq < getCurrentSpeedSq st.getActiveFootHistory then
    { st with peakVelocitySq := getCurrentSpeedSq st.getActiveFootHistory }
  else st

/-- The `case KickPhase::Acceleration` body of `KickDetector::updatePhase`. -/
def stepAcceleration (st : KickDetectorState) (timestamp : ℕ) :
    KickDetectorState × List KickEvent :=
  if MIN_ACCELERATION_TIME ≤ usub64 timestamp (trackPeak st).phaseStartTime
      ∧ detectContact (trackPeak st).getActiveAnkleHistory
          (trackPeak st).getActiveFootHistory then
    ({ trackPeak st with
        currentPhase := KickPhase.Contact
        phaseStartTime := timestamp
        kickDirectionRaw := calculateKickDirectionRaw (trackPeak st) }, [])
  else (trackPeak st, [])

/-- The `case KickPhase::Contact` body of `KickDetector::updatePhase`. -/
def stepContact (st : KickDetectorState) (timestamp : ℕ) :
    KickDetectorState × List KickEvent :=
  if detectFollowThrough st.getActiveAnkleHistory st.getActiveFootHistory then
    ({ st with
        currentPhase := KickPhase.FollowThrough
        phaseStartTime := timestamp }, [])
  else (st, [])

/-- The `case KickPhase::FollowThrough` body of `KickDetector::updatePhase`. -/
def stepFollowThrough (st : KickDetectorState) (timestamp : ℕ) :
    KickDetectorState × List KickEvent :=
  if 300000 < usub64 timestamp st.phaseStartTime then
    (reset st, completeKick st)
  else (st, [])

/-- The dominant-foot re-evaluation at the top of
`KickDetector::updatePhase`. -/
def applyDominantFoot (st : KickDetectorState) : KickDetectorState :=
  { st with dominantFoot := updateDominantFoot st }

/-- `KickDetector::updatePhase`: one step of the phase state machine, also
returning the completed-kick events emitted during the step. -/
def updatePhase (st : KickDetectorState) (timestamp : ℕ) :
    KickDetectorState × List KickEvent :=
  if (applyDominantFoot st).dominantFoot = DominantFoot.Unknown
  then (applyDominantFoot st, [])
  else
    match (applyDominantFoot st).currentPhase with
    | KickPhase.Idle => stepIdle (applyDominantFoot st) timestamp
    | KickPhase.WindUp => stepWindUp (applyDominantFoot st) timestamp
    | KickPhase.Acceleration => stepAcceleration (applyDominantFoot st) timestamp
    | KickPhase.Contact => stepContact (applyDominantFoot st) timestamp
    | KickPhase.FollowThrough => stepFollowThrough (applyDominantFoot st) timestamp

/-- The history updates of `KickDetector::processSkeleton`: store the
skeleton snapshot and timestamp and push each tracked joint into its
history. -/
def ingestFrames (st : KickDetectorState) (skeleton : Skeleton)
    (timestamp : ℕ) : KickDetectorState :=
  { st with
    currentSkeleton := skeleton
    currentTimestamp := timestamp
    leftAnkleHistory := addFrame st.leftAnkleHistory
      skeleton.ankleLeft.position timestamp skeleton.ankleLeft.confidence
    rightAnkleHistory := addFrame st.rightAnkleHistory
      skeleton.ankleRight.position timestamp skeleton.ankleRight.confidence
    leftFootHistory := addFrame st.leftFootHistory
      skeleton.footLeft.position timestamp skeleton.footLeft.confidence
    rightFootHistory := addFrame st.rightFootHistory
      skeleton.footRight.position timestamp skeleton.footRight.confidence
    leftKneeHistory := addFrame st.leftKneeHistory
      skeleton.kneeLeft.position timestamp skeleton.kneeLeft.confidence
    rightKneeHistory := addFrame st.rightKneeHistory
      skeleton.kneeRight.position timestamp skeleton.kneeRight.confidence
    leftHipHistory := addFrame st.leftHipHistory
      skeleton.hipLeft.position timestamp skeleton.hipLeft.confidence
    rightHipHistory := addFrame st.rightHipHistory
      skeleton.hipRight.position timestamp skeleton.hipRight.confidence
    pelvisHistory := addFrame st.pelvisHistory
      skeleton.pelvis.position timestamp skeleton.pelvis.confidence }

/-- `KickDetector::processSkeleton`: fold the frame into all joint
histories, then advance the phase machine. -/
def processSkeleton (st : KickDetectorState) (skeleton : Skeleton)
    (timestamp : ℕ) : KickDetectorState × List KickEvent :=
  updatePhase (ingestFrames st skeleton timestamp) timestamp

end KickDetector

/-! ## Real-valued vector math (KickAnalyzer helpers) -/

/-- A 3-vector with real components, for the analyzer's `sqrt`/`acos`
computations. -/
structure Vec3R where
  x : ℝ
  y : ℝ
  z : ℝ

namespace Vec3R

def zero : Vec3R := ⟨0, 0, 0⟩

def sub (a b : Vec3R) : Vec3R := ⟨a.x - b.x, a.y - b.y, a.z - b.z⟩

def scale (v : Vec3R) (s : ℝ) : Vec3R := ⟨v.x * s, v.y * s, v.z * s⟩

/-- `KickAnalyzer::dotProduct`. -/
def dot (a b : Vec3R) : ℝ := a.x * b.x + a.y * b.y + a.z * b.z

/-- `KickAnalyzer::magnitude`. -/
noncomputable def mag (v : Vec3R) : ℝ := Real.sqrt (v.x * v.x + v.y * v.y + v.z * v.z)

open Classical

/-- `KickAnalyzer::normalize`: zero vector when the magnitude is below
`0.0001`, else the unit vector. -/
noncomputable def normalize (v : Vec3R) : Vec3R :=
  if v.mag < 1 / 10000 then zero
  else ⟨v.x / v.mag, v.y / v.mag, v.z / v.mag⟩

end Vec3R

/-- Embedding of a rational vector into `Vec3R`. -/
def Vec3.toR (v : Vec3) : Vec3R := ⟨(v.x : ℝ), (v.y : ℝ), (v.z : ℝ)⟩

/-- The literal `3.14159265359f` the source multiplies by `180/·` to convert
radians to degrees (slightly larger than π). -/
def PI_F : ℝ := 3.14159265359

/-- `calculateJointAngle` (duplicated in KickDetector and KickAnalyzer):
angle at `joint2` between the bone vectors to `joint1` and `joint3`, with the
dot product clamped to `[-1,1]` before `acos`, in degrees. -/
noncomputable def calculateJointAngle (joint1 joint2 joint3 : Vec3R) : ℝ :=
  let v1 := (joint1.sub joint2).normalize
  let v2 := (joint3.sub joint2).normalize
  let d := max (-1) (min 1 (v1.dot v2))
  Real.arccos d * (180 / PI_F)

/-- `KickAnalyzer::angleBetweenVectors`: angle between two vectors after
normalizing both, dot clamped to `[-1,1]`, in degrees. -/
noncomputable def angleBetweenVectors (a b : Vec3R) : ℝ :=
  let normA := a.normalize
  let normB := b.normalize
  let d := max (-1) (min 1 (normA.dot normB))
  Real.arccos d * (180 / PI_F)

/-! ## KickAnalyzer -/

/-- `KickQuality` (KickTypes.h) with real-valued fields. -/
structure KickQuality where
  footVelocity : ℝ
  estimatedBallSpeed : ℝ
  powerScore : ℝ
  directionAngle : ℝ
  accuracyScore : ℝ
  kneeAngle : ℝ
  hipRotation : ℝ
  followThroughLength : ℝ
  techniqueScore : ℝ
  bodyLeanAngle : ℝ
  balanceScore : ℝ
  overallScore : ℝ

/-- The `KickQuality()` default constructor: all fields zero. -/
def KickQuality.default : KickQuality := ⟨0, 0, 0, 0, 0, 0, 0, 0, 0, 0, 0, 0⟩

/-- `KickResult` (KickTypes.h). -/
structure KickResult where
  type : KickType
  foot : DominantFoot
  quality : KickQuality
  kickDirection : Vec3R
  timestamp : ℕ
  isValid : Bool

/-- `TargetZone` (KickAnalyzer.h). -/
structure TargetZone where
  center : Vec3R
  radius : ℝ

/-- The `TargetZone()` default: center `(0,0,3)`, radius `0.5`. -/
noncomputable def TargetZone.default : TargetZone := ⟨⟨0, 0, 3⟩, 1 / 2⟩

namespace KickAnalyzer

open MotionHistory

/-- `KickAnalyzer::POWER_WEIGHT`. -/
def POWER_WEIGHT : ℝ := 0.30

/-- `KickAnalyzer::ACCURACY_WEIGHT`. -/
def ACCURACY_WEIGHT : ℝ := 0.25

/-- `KickAnalyzer::TECHNIQUE_WEIGHT`. -/
def TECHNIQUE_WEIGHT : ℝ := 0.25

/-- `KickAnalyzer::BALANCE_WEIGHT`. -/
def BALANCE_WEIGHT : ℝ := 0.20

/-- `KickAnalyzer::MAX_BALL_SPEED_KMH`. -/
def MAX_BALL_SPEED_KMH : ℝ := 120

/-- `KickAnalyzer::IDEAL_KNEE_ANGLE` (degrees). -/
def IDEAL_KNEE_ANGLE : ℝ := 135

/-- `KickAnalyzer::MAX_HIP_ROTATION` (degrees). -/
def MAX_HIP_ROTATION : ℝ := 90

/-- The hip/knee/ankle joints of the dominant side (the
`(foot == Left) ? … : …` selections in KickAnalyzer.cpp). -/
def activeHip (skeleton : Skeleton) (foot : DominantFoot) : Joint :=
  if foot = DominantFoot.Left then skeleton.hipLeft else skeleton.hipRight

def activeKnee (skeleton : Skeleton) (foot : DominantFoot) : Joint :=
  if foot = DominantFoot.Left then skeleton.kneeLeft else skeleton.kneeRight

def activeAnkle (skeleton : Skeleton) (foot : DominantFoot) : Joint :=
  if foot = DominantFoot.Left then skeleton.ankleLeft else skeleton.ankleRight

/-- `KickAnalyzer::calculateKneeAngle`: hip–knee–ankle joint angle of the
dominant side. -/
noncomputable def calculateKneeAngle (skeleton : Skeleton) (foot : DominantFoot) : ℝ :=
  calculateJointAngle (activeHip skeleton foot).position.toR
    (activeKnee skeleton foot).position.toR
    (activeAnkle skeleton foot).position.toR

open Classical

/-- `KickAnalyzer::classifyKickType`: decision tree over the knee angle, the
peak foot speed and the lateral-vs-forward velocity components, defaulting to
`Instep`. -/
noncomputable def classifyKickType (skeleton : Skeleton)
    (footHistory _kneeHistory : MotionHistory) (foot : DominantFoot) : KickType :=
  let kneeAngle := calculateKneeAngle skeleton foot
  let peakSpeed := getPeakSpeedR footHistory
  let velocity := getCurrentVelocity footHistory
  if 160 < kneeAngle ∧ 3 < peakSpeed then KickType.Instep
  else if kneeAngle < 120 then KickType.SideFootPass
  else if |(velocity.z : ℝ)| < |(velocity.x : ℝ)| then KickType.Outside
  else if 4 < peakSpeed ∧ kneeAngle < 140 then KickType.Toe
  else KickType.Instep

/-- `KickAnalyzer::calculateEstimatedBallSpeed`: foot speed × 1.25,
converted m/s → km/h. -/

def calculateEstimatedBallSpeed (footVelocity : ℝ) : ℝ :=
  footVelocity * 1.25 * 3.6

/-- `KickAnalyzer::calculatePowerScore`: ball speed normalized against
`MAX_BALL_SPEED_KMH`, capped at 100. -/
noncomputable def calculatePowerScore (ballSpeed : ℝ) : ℝ :=
  min 100 (ballSpeed / MAX_BALL_SPEED_KMH * 100)

/-- `KickAnalyzer::calculateDirectionAngle`: angle between the kick
direction and the unit vector toward the target-zone center. -/
noncomputable def calculateDirectionAngle (target : TargetZone)
    (kickDirection : Vec3R) : ℝ :=
  angleBetweenVectors kickDirection ((target.center.sub Vec3R.zero).normalize)

/-- `KickAnalyzer::calculateAccuracyScore`: linear falloff from 100 at 0° to
0 at 30°, clamped to `[0,100]`. -/
noncomputable def calculateAccuracyScore (directionAngle : ℝ) : ℝ :=
  max 0 (min 100 (100 - directionAngle / 30 * 100))

/-- `KickAnalyzer::calculateHipRotation`: angle between the horizontal
projection of the hip line and the forward Z axis. -/
noncomputable def calculateHipRotation (skeleton : Skeleton)
    (_foot : DominantFoot) : ℝ :=
  let hipLine := skeleton.hipRight.position.toR.sub skeleton.hipLeft.position.toR
  let hipLineXZ : Vec3R := ⟨hipLine.x, 0, hipLine.z⟩
  angleBetweenVectors hipLineXZ.normalize ⟨0, 0, 1⟩

/-- `KickAnalyzer::calculateFollowThroughLength`: distance summed between
the looked-back positions 10,9,…,1 frames ago; 0 if fewer than 11 frames. -/
noncomputable def calculateFollowThroughLength (footHistory : MotionHistory) : ℝ :=
  match getPositionBack footHistory 10 with
  | none => 0
  | some prev0 =>
      (List.foldl
        (fun (acc : ℝ × Vec3) i =>
          match getPositionBack footHistory i with
          | some pos => (acc.1 + (pos.toR.sub acc.2.toR).mag, pos)
          | none => acc)
        ((0 : ℝ), prev0)
        ((List.range 9).map (fun k => 9 - k))).1

/-- `KickAnalyzer::calculateTechniqueScore`: clamped knee-angle closeness,
hip rotation and follow-through length blended 0.4/0.3/0.3. -/
noncomputable def calculateTechniqueScore (kneeAngle hipRotation followThrough : ℝ) : ℝ :=
  let kneeScore := max 0 (min 100 (100 - |kneeAngle - IDEAL_KNEE_ANGLE| / IDEAL_KNEE_ANGLE * 100))
  let hipScore := max 0 (min 100 (hipRotation / MAX_HIP_ROTATION * 100))
  let followScore := max 0 (min 100 (followThrough / 1 * 100))
  kneeScore * 0.4 + hipScore * 0.3 + followScore * 0.3

/-- `KickAnalyzer::calculateBodyLeanAngle`: angle between the pelvis→chest vector
and vertical. -/
noncomputable def calculateBodyLeanAngle (skeleton : Skeleton) : ℝ :=
  angleBetweenVectors
    (skeleton.spineChest.position.toR.sub skeleton.pelvis.position.toR) ⟨0, 1, 0⟩

/-- `KickAnalyzer::calculateBalanceScore`: 100 at the ideal 10° lean,
linear falloff to 0 at 45° deviation, clamped. -/
noncomputable def calculateBalanceScore (bodyLeanAngle : ℝ) : ℝ :=
  max 0 (min 100 (100 - |bodyLeanAngle - 10| / 45 * 100))

/-- `KickAnalyzer::calculateOverallScore`: fixed weighted sum of the four
axis scores. -/
def calculateOverallScore (quality : KickQuality) : ℝ :=
  quality.powerScore * POWER_WEIGHT +
    quality.accuracyScore * ACCURACY_WEIGHT +
    quality.techniqueScore * TECHNIQUE_WEIGHT +
    quality.balanceScore * BALANCE_WEIGHT

/-- `KickAnalyzer::analyzeKick`: the full classified, scored result (the
unassigned `KickQuality` fields keep their constructor defaults). -/
noncomputable def analyzeKick (target : TargetZone) (skeleton : Skeleton)
    (_ankleHistory footHistory kneeHistory _hipHistory _pelvisHistory : MotionHistory)
    (foot : DominantFoot) (timestamp : ℕ) : KickResult :=
  let kickDirection := (getAverageVelocity footHistory 3).toR.normalize
  let footVelocity := getPeakSpeedR footHistory
  let estimatedBallSpeed := calculateEstimatedBallSpeed footVelocity
  let directionAngle := calculateDirectionAngle target kickDirection
  let kneeAngle := calculateKneeAngle skeleton foot
  let hipRotation := calculateHipRotation skeleton foot
  let followThroughLength := calculateFollowThroughLength footHistory
  let bodyLeanAngle := calculateBodyLeanAngle skeleton
  let quality : KickQuality :=
    { footVelocity := footVelocity
      estimatedBallSpeed := estimatedBallSpeed
      powerScore := calculatePowerScore estimatedBallSpeed
      directionAngle := directionAngle
      accuracyScore := calculateAccuracyScore directionAngle
      kneeAngle := kneeAngle
      hipRotation := hipRotation
      followThroughLength := followThroughLength
      techniqueScore := calculateTechniqueScore kneeAngle hipRotation followThroughLength
      bodyLeanAngle := bodyLeanAngle
      balanceScore := calculateBalanceScore bodyLeanAngle
      overallScore := 0 }
  let quality := { quality with overallScore := calculateOverallScore quality }
  { type := classifyKickType skeleton footHistory kneeHistory foot
    foot := foot
    quality := quality
    kickDirection := kickDirection
    timestamp := timestamp
    isValid := true }

end KickAnalyzer

/-- The `KickResult` value `KickDetector::completeKick` builds and hands to
the callback: basic quality metrics only (peak foot velocity and
`peak * 3.6` km/h), the default `Instep` type, the frozen kick direction. -/
noncomputable def deliveredResult (ev : KickDetector.KickEvent) : KickResult :=
  { type := KickType.Instep
    foot := ev.foot
    quality :=
      { KickQuality.default with
          footVelocity := Real.sqrt ev.peakVelocitySq
          estimatedBallSpeed := Real.sqrt ev.peakVelocitySq * 3.6 }
    kickDirection := ev.kickDirectionRaw.toR.normalize
    timestamp := ev.timestamp
    isValid := true }

/-! ## HeaderDetector (reset path) -/

/-- `HeaderPhase` (HeaderDetector.h). -/
inductive HeaderPhase where
  | Idle
  | Setup
  | Preparation
  | Contact
  | Recovery
deriving DecidableEq, Repr

/-- The state fields of a `HeaderDetector` (HeaderDetector.h);
`peakHeadVelocitySq`/`headerDirectionRaw` follow the same squared/raw
conventions as `KickDetectorState`. -/
structure HeaderDetectorState where
  headHistory : MotionHistory
  neckHistory : MotionHistory
  spineChestHistory : MotionHistory
  pelvisHistory : MotionHistory
  shoulderLeftHistory : MotionHistory
  shoulderRightHistory : MotionHistory
  currentPhase : HeaderPhase
  phaseStartTime : ℕ
  peakHeadVelocitySq : ℚ
  headerDirectionRaw : Vec3
deriving DecidableEq, Repr

/-- `HeaderDetector::reset`: Idle, phase clock, peak head velocity and
header direction cleared; the six histories untouched. -/
def HeaderDetectorState.reset (st : HeaderDetectorState) : HeaderDetectorState :=
  { st with
    currentPhase := HeaderPhase.Idle
    phaseStartTime := 0
    peakHeadVelocitySq := 0
    headerDirectionRaw := Vec3.zero }

/-! ## Claims -/

open MotionHistory KickDetector

/-- Concrete states used by the C7 witness. -/
def kickStateEx : KickDetectorState :=
  ⟨[], [], [], [], [], [], [], [], [], KickPhase.Contact, DominantFoot.Left,
    4, 9, ⟨1, 1, 1⟩, true, Skeleton.zero, 4⟩

def headerStateEx : HeaderDetectorState :=
  ⟨[], [], [], [], [], [], HeaderPhase.Contact, 4, 9, ⟨1, 1, 1⟩⟩

/-- A foot history built by three accepted frames whose derived velocities
are `0`, `(0,0,1.8)` and `(0,0,1)`: the preceding sample's speed (1.8 m/s)
is *between* `0.8 × VELOCITY_ACCELERATION = 1.6` and
`VELOCITY_ACCELERATION = 2`, and the current speed 1 is below `0.7 × 1.8`. -/
def footHist2 : MotionHistory :=
  addFrame (addFrame (addFrame [] ⟨0, 0, 0⟩ 0 1) ⟨0, 0, 9/5⟩ 1000000 1)
    ⟨0, 0, 14/5⟩ 2000000 1

/-- A detector state in the Acceleration phase, right foot active, 0.1 s
into the phase, whose active foot history is `footHist2`. -/
def st2 : KickDetectorState :=
  { leftAnkleHistory := [], rightAnkleHistory := [], leftFootHistory := [],
    rightFootHistory := footHist2, leftKneeHistory := [], rightKneeHistory := [],
    leftHipHistory := [], rightHipHistory := [], pelvisHistory := [],
    currentPhase := KickPhase.Acceleration, dominantFoot := DominantFoot.Right,
    phaseStartTime := 1900000, peakVelocitySq := 81/25,
    kickDirectionRaw := Vec3.zero, callbackSet := true,
    currentSkeleton := Skeleton.zero, currentTimestamp := 2000000 }

/-- A detector state stalled in WindUp: empty histories (so no acceleration
sample can be detected), nonzero in-flight peak/direction data, phase
entered at timestamp 0. -/
def st3w : KickDetectorState :=
  { leftAnkleHistory := [], rightAnkleHistory := [], leftFootHistory := [],
    rightFootHistory := [], leftKneeHistory := [], rightKneeHistory := [],
    leftHipHistory := [], rightHipHistory := [], pelvisHistory := [],
    currentPhase := KickPhase.WindUp, dominantFoot := DominantFoot.Right,
    phaseStartTime := 0, peakVelocitySq := 7/2,
    kickDirectionRaw := ⟨1, 2, 3⟩, callbackSet := true,
    currentSkeleton := Skeleton.zero, currentTimestamp := 2000001 }

/-- A foot history whose three accepted frames keep a constant forward
velocity `(0,0,3)` on the last two samples — above all thresholds, with no
deceleration, so `detectContact` never fires. -/
def footHist3 : MotionHistory :=
  addFrame (addFrame (addFrame [] ⟨0, 0, 0⟩ 0 1) ⟨0, 0, 3⟩ 1000000 1)
    ⟨0, 0, 6⟩ 2000000 1

/-- A detector state that has been sitting in the Acceleration phase for 100
seconds of timestamps. -/
def st3 : KickDetectorState :=
  { leftAnkleHistory := [], rightAnkleHistory := [], leftFootHistory := [],
    rightFootHistory := footHist3, leftKneeHistory := [], rightKneeHistory := [],
    leftHipHistory := [], rightHipHistory := [], pelvisHistory := [],
    currentPhase := KickPhase.Acceleration, dominantFoot := DominantFoot.Right,
    phaseStartTime := 0, peakVelocitySq := 9,
    kickDirectionRaw := Vec3.zero, callbackSet := true,
    currentSkeleton := Skeleton.zero, currentTimestamp := 100000000 }

/-- A skeleton whose right hip/knee/ankle form a right angle at the knee
(hip `(0,1,0)`, knee origin, ankle `(1,0,0)`): knee angle 90° < 120°. -/
def skelBent : Skeleton :=
  { pelvis := Joint.zero, hipLeft := Joint.zero,
    hipRight := ⟨⟨0, 1, 0⟩, 1⟩, kneeLeft := Joint.zero,
    kneeRight := ⟨⟨0, 0, 0⟩, 1⟩, ankleLeft := Joint.zero,
    ankleRight := ⟨⟨1, 0, 0⟩, 1⟩, footLeft := Joint.zero,
    footRight := Joint.zero, spineChest := Joint.zero }

/-- The completed-kick state for C1: FollowThrough entered at timestamp 0,
callback registered, right foot dominant, bent-knee skeleton snapshot. -/
def st1c : KickDetectorState :=
  { leftAnkleHistory := [], rightAnkleHistory := [], leftFootHistory := [],
    rightFootHistory := [], leftKneeHistory := [], rightKneeHistory := [],
    leftHipHistory := [], rightHipHistory := [], pelvisHistory := [],
    currentPhase := KickPhase.FollowThrough, dominantFoot := DominantFoot.Right,
    phaseStartTime := 0, peakVelocitySq := 25,
    kickDirectionRaw := ⟨0, 0, 2⟩, callbackSet := true,
    currentSkeleton := skelBent, currentTimestamp := 1000000 }

/-- A skeleton whose right hip/knee/ankle are colinear with the knee in the
middle (hip `(0,1,0)`, knee origin, ankle `(0,-1,0)`): a fully straight leg,
knee angle 180°. -/
def skelStraight : Skeleton :=
  { pelvis := Joint.zero, hipLeft := Joint.zero,
    hipRight := ⟨⟨0, 1, 0⟩, 1⟩, kneeLeft := Joint.zero,
    kneeRight := ⟨⟨0, 0, 0⟩, 1⟩, ankleLeft := Joint.zero,
    ankleRight := ⟨⟨0, -1, 0⟩, 1⟩, footLeft := Joint.zero,
    footRight := Joint.zero, spineChest := Joint.zero }

/-- A foot history with a single fast forward sample: derived velocity
`(0,0,4)`, peak speed 4 m/s. -/
def histFast : MotionHistory :=
  addFrame (addFrame [] ⟨0, 0, 0⟩ 0 1) ⟨0, 0, 4⟩ 1000000 1

/-- A foot history with a single *lateral* sample at 2.5 m/s: derived
velocity `(2.5,0,0)`, peak speed 2.5 m/s — above the 2 m/s acceleration
threshold but below the classifier's 3 m/s cutoff. -/
def histLateral : MotionHistory :=
  addFrame (addFrame [] ⟨0, 0, 0⟩ 0 1) ⟨5/2, 0, 0⟩ 1000000 1

theorem Vec3.magSq_nonneg (v : Vec3) : 0 ≤ v.magSq := by
  have hx := mul_self_nonneg v.x
  have hy := mul_self_nonneg v.y
  have hz := mul_self_nonneg v.z
  unfold Vec3.magSq; linarith

theorem Vec3.magR_nonneg (v : Vec3) : 0 ≤ v.magR := Real.sqrt_nonneg _

/-- Bridging lemma: for a nonnegative threshold `c`,
`c < Real.sqrt q ↔ c * c < q`; this justifies embedding the source's
`magnitude(v) > c` as `c * c < magSq v`. -/
theorem sqrt_gt_iff_sq {q c : ℝ} (hc : 0 ≤ c) : c < Real.sqrt q ↔ c * c < q := by
  rw [← sq]; exact Real.lt_sqrt hc

/-- Bridging lemma: for a positive threshold `c`,
`Real.sqrt q < c ↔ q < c * c`. -/
theorem sqrt_lt_iff_sq {q c : ℝ} (hc : 0 < c) : Real.sqrt q < c ↔ q < c * c := by
  rw [← sq]; exact Real.sqrt_lt' hc

/-- Bridging lemma for the contact deceleration test: the source's
`currentSpeed < previousSpeed * 0.7` is equivalent to
`100 * currentSq < 49 * previousSq` on the squared magnitudes. -/
theorem sqrt_lt_frac_sqrt_iff {a b : ℝ} (ha : 0 ≤ a) :
    Real.sqrt a < Real.sqrt b * (7 / 10) ↔ 100 * a < 49 * b := by
  have h1 : Real.sqrt b * (7 / 10) = Real.sqrt (49 / 100 * b) := by
    rw [Real.sqrt_mul (by norm_num : (0:ℝ) ≤ 49 / 100) b,
      show Real.sqrt (49 / 100) = 7 / 10 by
        rw [show (49 / 100 : ℝ) = (7 / 10) ^ 2 by norm_num,
          Real.sqrt_sq (by norm_num : (0:ℝ) ≤ 7 / 10)]]
    ring
  rw [h1, Real.sqrt_lt_sqrt_iff ha]
  constructor <;> intro h <;> linarith

/-- Bridging lemma for the dominant-foot ratio test: the source's
`leftSpeed > rightSpeed * 1.5` is equivalent to
`9 * rightSq < 4 * leftSq` on the squared magnitudes. -/
theorem frac_sqrt_lt_sqrt_iff {a b : ℝ} (hb : 0 ≤ b) :
    Real.sqrt b * (3 / 2) < Real.sqrt a ↔ 9 * b < 4 * a := by
  have h1 : Real.sqrt b * (3 / 2) = Real.sqrt (9 / 4 * b) := by
    rw [Real.sqrt_mul (by norm_num : (0:ℝ) ≤ 9 / 4) b,
      show Real.sqrt (9 / 4) = 3 / 2 by
        rw [show (9 / 4 : ℝ) = (3 / 2) ^ 2 by norm_num,
          Real.sqrt_sq (by norm_num : (0:ℝ) ≤ 3 / 2)]]
    ring
  rw [h1, Real.sqrt_lt_sqrt_iff (by positivity)]
  constructor <;> intro h <;> linarith

theorem usub64_of_le {a b : ℕ} (h : b ≤ a) (ha : a < U64) : usub64 a b = a - b := by
  have hb : b < U64 := lt_of_le_of_lt h ha
  unfold usub64
  rw [Nat.mod_eq_of_lt hb]
  have h1 : a + (U64 - b) = (a - b) + U64 := by omega
  rw [h1, Nat.add_mod_right, Nat.mod_eq_of_lt (by omega)]

theorem usub64_self {a : ℕ} (ha : a < U64) : usub64 a a = 0 := by
  unfold usub64 U64 at *
  omega

theorem usub64_pos {a b : ℕ} (ha : a < U64) (hb : b < U64) (hne : a ≠ b) :
    0 < usub64 a b := by
  unfold usub64 U64 at *
  omega

theorem MotionHistory.getPeakSpeedSq_nonneg (h : MotionHistory) : 0 ≤ getPeakSpeedSq h := by
  have H : ∀ (t : List JointFrame) (q : ℚ),
      q ≤ List.foldl (fun peak f => max peak f.velocity.magSq) q t := by
    intro t
    induction t with
    | nil => intro q; exact le_refl q
    | cons f t ih => intro q; exact le_trans (le_max_left _ _) (ih _)
  exact H h 0

/-- `Real.sqrt` is monotone, so it maps `max` to `max`. -/
theorem real_sqrt_max (a b : ℝ) :
    Real.sqrt (max a b) = max (Real.sqrt a) (Real.sqrt b) := by
  rcases le_total a b with hle | hle
  · rw [max_eq_right hle, max_eq_right (Real.sqrt_le_sqrt hle)]
  · rw [max_eq_left hle, max_eq_left (Real.sqrt_le_sqrt hle)]

/-- Faithfulness of `getPeakSpeedR`: the square root of the folded maximum of
squared magnitudes is the folded maximum of the real magnitudes, i.e. exactly
the loop of `MotionHistory::getPeakSpeed`. -/
theorem MotionHistory.getPeakSpeedR_eq_fold (h : MotionHistory) :
    getPeakSpeedR h = List.foldl (fun peak f => max peak f.velocity.magR) 0 h := by
  have H : ∀ (t : List JointFrame) (q : ℚ),
      Real.sqrt ((List.foldl (fun peak f => max peak f.velocity.magSq) q t : ℚ) : ℝ) =
      List.foldl (fun peak f => max peak f.velocity.magR) (Real.sqrt (q : ℝ)) t := by
    intro t
    induction t with
    | nil => intro q; rfl
    | cons f t ih =>
        intro q
        simp only [List.foldl_cons]
        rw [ih (max q f.velocity.magSq), Rat.cast_max, real_sqrt_max]
        rfl
  have H0 := H h 0
  simpa [getPeakSpeedR, getPeakSpeedSq] using H0

/-- C6: an `addFrame` call whose confidence is below the 0.5 acceptance
threshold is a no-op: the stored contents, sample count, current velocity,
current speed and peak speed are identical before and after the call. -/
theorem C6_low_confidence_addFrame_noop (h : MotionHistory) (position : Vec3)
    (timestamp : ℕ) (confidence : ℚ) (hc : confidence < MIN_CONFIDENCE) :
    addFrame h position timestamp confidence = h ∧
    (addFrame h position timestamp confidence).length = h.length ∧
    getCurrentVelocity (addFrame h position timestamp confidence) =
      getCurrentVelocity h ∧
    getCurrentSpeedR (addFrame h position timestamp confidence) =
      getCurrentSpeedR h ∧
    getPeakSpeedR (addFrame h position timestamp confidence) =
      getPeakSpeedR h := by
  have he : addFrame h position timestamp confidence = h := by
    unfold addFrame
    rw [if_pos hc]
  exact ⟨he, by rw [he], by rw [he], by rw [he], by rw [he]⟩

/-- Witness for C6 at confidence 0.2 on a one-sample history. -/
theorem C6_low_confidence_addFrame_noop_witness :
    (2 / 10 : ℚ) < MIN_CONFIDENCE ∧
    addFrame [⟨⟨1, 2, 3⟩, ⟨0, 0, 0⟩, 7, 1⟩] ⟨4, 5, 6⟩ 9 (2 / 10) =
      [⟨⟨1, 2, 3⟩, ⟨0, 0, 0⟩, 7, 1⟩] :=
  ⟨by norm_num [MIN_CONFIDENCE],
    (C6_low_confidence_addFrame_noop [⟨⟨1, 2, 3⟩, ⟨0, 0, 0⟩, 7, 1⟩]
      ⟨4, 5, 6⟩ 9 (2 / 10) (by norm_num [MIN_CONFIDENCE])).1⟩

/-- C7: `reset()` on either detector returns the phase machine to Idle and
clears the peak-velocity and action-direction tracking, but clears no
`MotionHistory`: every history field is retained, and a subsequent accepted
`addFrame` on such a history appends to the retained contents. -/
theorem C7_reset_keeps_history (st : KickDetectorState) (hst : HeaderDetectorState)
    (h : MotionHistory) (position : Vec3) (timestamp : ℕ) (confidence : ℚ)
    (hc : MIN_CONFIDENCE ≤ confidence) (hlen : h.length < MAX_HISTORY) :
    (KickDetector.reset st).currentPhase = KickPhase.Idle ∧
    (KickDetector.reset st).peakVelocitySq = 0 ∧
    (KickDetector.reset st).kickDirectionRaw = Vec3.zero ∧
    (KickDetector.reset st).leftAnkleHistory = st.leftAnkleHistory ∧
    (KickDetector.reset st).rightAnkleHistory = st.rightAnkleHistory ∧
    (KickDetector.reset st).leftFootHistory = st.leftFootHistory ∧
    (KickDetector.reset st).rightFootHistory = st.rightFootHistory ∧
    (KickDetector.reset st).leftKneeHistory = st.leftKneeHistory ∧
    (KickDetector.reset st).rightKneeHistory = st.rightKneeHistory ∧
    (KickDetector.reset st).leftHipHistory = st.leftHipHistory ∧
    (KickDetector.reset st).rightHipHistory = st.rightHipHistory ∧
    (KickDetector.reset st).pelvisHistory = st.pelvisHistory ∧
    hst.reset.currentPhase = HeaderPhase.Idle ∧
    hst.reset.peakHeadVelocitySq = 0 ∧
    hst.reset.headerDirectionRaw = Vec3.zero ∧
    hst.reset.headHistory = hst.headHistory ∧
    hst.reset.neckHistory = hst.neckHistory ∧
    hst.reset.spineChestHistory = hst.spineChestHistory ∧
    hst.reset.pelvisHistory = hst.pelvisHistory ∧
    hst.reset.shoulderLeftHistory = hst.shoulderLeftHistory ∧
    hst.reset.shoulderRightHistory = hst.shoulderRightHistory ∧
    addFrame h position timestamp confidence =
      h ++ [nextFrame h position timestamp confidence] := by
  refine ⟨rfl, rfl, rfl, rfl, rfl, rfl, rfl, rfl, rfl, rfl, rfl, rfl,
    rfl, rfl, rfl, rfl, rfl, rfl, rfl, rfl, rfl, ?_⟩
  unfold addFrame
  rw [if_neg (not_lt.mpr hc), if_neg]
  simp only [List.length_append, List.length_cons, List.length_nil, not_lt]
  omega

/-- Witness for C7 on a concrete non-empty history. -/
theorem C7_reset_keeps_history_witness :
    (MIN_CONFIDENCE ≤ (1 : ℚ) ∧
      ([⟨⟨1, 0, 0⟩, ⟨0, 0, 0⟩, 3, 1⟩] : MotionHistory).length < MAX_HISTORY) ∧
    addFrame [⟨⟨1, 0, 0⟩, ⟨0, 0, 0⟩, 3, 1⟩] ⟨2, 0, 0⟩ 5 1 =
      [⟨⟨1, 0, 0⟩, ⟨0, 0, 0⟩, 3, 1⟩] ++
        [nextFrame [⟨⟨1, 0, 0⟩, ⟨0, 0, 0⟩, 3, 1⟩] ⟨2, 0, 0⟩ 5 1] :=
  ⟨⟨by norm_num [MIN_CONFIDENCE], by decide⟩,
    (C7_reset_keeps_history kickStateEx headerStateEx
      [⟨⟨1, 0, 0⟩, ⟨0, 0, 0⟩, 3, 1⟩] ⟨2, 0, 0⟩ 5 1
      (by norm_num [MIN_CONFIDENCE])
      (by decide)).2.2.2.2.2.2.2.2.2.2.2.2.2.2.2.2.2.2.2.2.2⟩

/-- `addFrame` keeps the history length at or below `MAX_HISTORY`. -/
theorem addFrame_length_le (h : MotionHistory) (position : Vec3) (timestamp : ℕ)
    (confidence : ℚ) (hlen : h.length ≤ MAX_HISTORY) :
    (addFrame h position timestamp confidence).length ≤ MAX_HISTORY := by
  unfold addFrame
  by_cases hc : confidence < MIN_CONFIDENCE
  · rw [if_pos hc]; exact hlen
  · rw [if_neg hc]
    by_cases hover : MAX_HISTORY <
        (h ++ [nextFrame h position timestamp confidence]).length
    · rw [if_pos hover]
      simp only [List.length_drop, List.length_append, List.length_cons,
        List.length_nil] at hover ⊢
      omega
    · rw [if_neg hover]
      omega

/-- C8: from an empty history, any sequence of `addFrame` calls leaves at
most `MAX_HISTORY = 30` stored samples, and an accepted frame arriving at a
full history evicts exactly the oldest sample, appending the new frame at
the back (FIFO order). -/
theorem C8_bounded_fifo (calls : List (Vec3 × ℕ × ℚ)) (h : MotionHistory)
    (position : Vec3) (timestamp : ℕ) (confidence : ℚ)
    (hfull : h.length = MAX_HISTORY) (hacc : MIN_CONFIDENCE ≤ confidence) :
    (List.foldl (fun acc c => addFrame acc c.1 c.2.1 c.2.2)
      MotionHistory.empty calls).length ≤ MAX_HISTORY ∧
    addFrame h position timestamp confidence =
      h.drop 1 ++ [nextFrame h position timestamp confidence] := by
  constructor
  · have H : ∀ (cs : List (Vec3 × ℕ × ℚ)) (acc : MotionHistory),
        acc.length ≤ MAX_HISTORY →
        (List.foldl (fun acc c => addFrame acc c.1 c.2.1 c.2.2) acc cs).length
          ≤ MAX_HISTORY := by
      intro cs
      induction cs with
      | nil => intro acc hacc'; exact hacc'
      | cons c cs ih =>
          intro acc hacc'
          exact ih _ (addFrame_length_le acc c.1 c.2.1 c.2.2 hacc')
    exact H calls MotionHistory.empty (by decide)
  · have hfull' : List.length h = 30 := by
      simpa [MAX_HISTORY] using hfull
    unfold addFrame
    rw [if_neg (not_lt.mpr hacc),
      if_pos (by
        simp only [List.length_append, List.length_cons, List.length_nil,
          MAX_HISTORY]
        omega),
      List.drop_append_of_le_length (by omega)]

/-- Witness for C8 at a full 30-sample history. -/
theorem C8_bounded_fifo_witness :
    ((List.replicate 30 (⟨⟨0, 0, 0⟩, ⟨0, 0, 0⟩, 1, 1⟩ : JointFrame) :
        MotionHistory).length = MAX_HISTORY ∧ MIN_CONFIDENCE ≤ (1 : ℚ)) ∧
    addFrame (List.replicate 30 ⟨⟨0, 0, 0⟩, ⟨0, 0, 0⟩, 1, 1⟩) ⟨1, 0, 0⟩ 2 1 =
      (List.replicate 30 (⟨⟨0, 0, 0⟩, ⟨0, 0, 0⟩, 1, 1⟩ : JointFrame)).drop 1 ++
        [nextFrame (List.replicate 30 ⟨⟨0, 0, 0⟩, ⟨0, 0, 0⟩, 1, 1⟩) ⟨1, 0, 0⟩ 2 1] :=
  ⟨⟨by decide, by norm_num [MIN_CONFIDENCE]⟩,
    (C8_bounded_fifo [] (List.replicate 30 ⟨⟨0, 0, 0⟩, ⟨0, 0, 0⟩, 1, 1⟩)
      ⟨1, 0, 0⟩ 2 1 (by decide) (by norm_num [MIN_CONFIDENCE])).2⟩

/-- C9 (amended): `calculateVelocity` yields the zero vector exactly when
the new timestamp *equals* the previous one (`Δt = 0`); when the new
timestamp is *strictly smaller*, the `uint64_t` subtraction wraps around to
a huge positive `Δt`, so the `Δt ≤ 0` guard does not fire — the division is
therefore never executed with a non-positive divisor, but an out-of-order
timestamp produces a (tiny) nonzero velocity rather than zero (see the
counterexample). -/
theorem C9_velocity_zero_guard (older newer : JointFrame)
    (hold : older.timestamp < U64) (hnew : newer.timestamp < U64) :
    (newer.timestamp = older.timestamp →
      calculateVelocity older newer = Vec3.zero) ∧
    (newer.timestamp ≠ older.timestamp →
      0 < ((usub64 newer.timestamp older.timestamp : ℕ) : ℚ) / 1000000 ∧
      calculateVelocity older newer =
        (newer.position.sub older.position).scale
          (1 / (((usub64 newer.timestamp older.timestamp : ℕ) : ℚ) / 1000000))) := by
  constructor
  · intro heq
    unfold calculateVelocity
    rw [heq, usub64_self hold]
    norm_num
  · intro hne
    have hpos : 0 < usub64 newer.timestamp older.timestamp :=
      usub64_pos hnew hold hne
    have hdt : 0 < ((usub64 newer.timestamp older.timestamp : ℕ) : ℚ) / 1000000 := by
      positivity
    refine ⟨hdt, ?_⟩
    unfold calculateVelocity
    rw [if_neg (not_le.mpr hdt)]

/-- Witness for C9 at equal timestamps (`Δt = 0` ⇒ zero velocity) and at a
strictly later timestamp (division executed with positive divisor). -/
theorem C9_velocity_zero_guard_witness :
    calculateVelocity ⟨⟨0, 0, 0⟩, ⟨0, 0, 0⟩, 7, 1⟩ ⟨⟨1, 0, 0⟩, ⟨0, 0, 0⟩, 7, 1⟩ =
      Vec3.zero ∧
    0 < ((usub64 9 7 : ℕ) : ℚ) / 1000000 :=
  ⟨(C9_velocity_zero_guard ⟨⟨0, 0, 0⟩, ⟨0, 0, 0⟩, 7, 1⟩ ⟨⟨1, 0, 0⟩, ⟨0, 0, 0⟩, 7, 1⟩
      (by decide) (by decide)).1 rfl,
    ((C9_velocity_zero_guard ⟨⟨0, 0, 0⟩, ⟨0, 0, 0⟩, 7, 1⟩ ⟨⟨2, 0, 0⟩, ⟨0, 0, 0⟩, 9, 1⟩
      (by decide) (by decide)).2 (by decide)).1⟩

/-- C9 counterexample: an accepted sample whose timestamp (5 µs) is *older*
than the previous one (10 µs) is appended with a *nonzero* velocity — the
wrapped `uint64_t` difference is huge but positive, so the zero-velocity
guard does not fire, refuting "velocity is zero whenever the new timestamp
is not greater than the previous one". -/
theorem C9_counterexample :
    (5 : ℕ) ≤ 10 ∧
    getCurrentVelocity
      (addFrame [⟨⟨0, 0, 0⟩, ⟨0, 0, 0⟩, 10, 1⟩] ⟨1, 0, 0⟩ 5 1) ≠ Vec3.zero := by
  refine ⟨by decide, ?_⟩
  have husub : usub64 5 10 = 18446744073709551611 := by decide
  norm_num [addFrame, nextFrame, calculateVelocity, getCurrentVelocity, husub,
    MIN_CONFIDENCE, MAX_HISTORY, Vec3.zero, Vec3.sub, Vec3.scale, Vec3.mk.injEq]

/-- C10: `getAverageVelocity`'s only divisor guard is the empty-history
early return: for a non-empty history the final scaling always divides by
the clamped count `min numFrames size`, which is positive whenever
`numFrames ≥ 1` but equals zero for the call `getAverageVelocity(0)` — that
call reaches the scaling division with divisor 0. -/
theorem C10_average_divisor (h : MotionHistory) (n : ℕ) :
    (h = [] → averageVelocityDivisor h n = none) ∧
    (h ≠ [] →
      averageVelocityDivisor h n = some (min n (List.length h)) ∧
      getAverageVelocity h n =
        (List.foldl (fun s f => s.add f.velocity) Vec3.zero
          (List.drop (List.length h - min n (List.length h)) h)).scale
          (1 / ((min n (List.length h) : ℕ) : ℚ)) ∧
      (1 ≤ n → 0 < min n (List.length h)) ∧
      (n = 0 → min n (List.length h) = 0)) := by
  constructor
  · intro he
    unfold averageVelocityDivisor
    rw [if_pos (by rw [he]; rfl)]
  · intro hne
    have hlen : List.length h ≠ 0 := fun h0 => hne (List.length_eq_zero.mp h0)
    refine ⟨?_, ?_, ?_, ?_⟩
    · unfold averageVelocityDivisor
      rw [if_neg hlen]
    · unfold getAverageVelocity
      rw [if_neg hlen]
    · intro hn
      have : 0 < List.length h := Nat.pos_of_ne_zero hlen
      omega
    · intro hn
      omega

theorem updatePhase_windUp (st : KickDetectorState) (ts : ℕ)
    (hknown : (applyDominantFoot st).dominantFoot ≠ DominantFoot.Unknown)
    (hphase : st.currentPhase = KickPhase.WindUp) :
    updatePhase st ts = stepWindUp (applyDominantFoot st) ts := by
  unfold updatePhase
  rw [if_neg hknown]
  have h : (applyDominantFoot st).currentPhase = KickPhase.WindUp := hphase
  rw [h]

theorem updatePhase_acceleration (st : KickDetectorState) (ts : ℕ)
    (hknown : (applyDominantFoot st).dominantFoot ≠ DominantFoot.Unknown)
    (hphase : st.currentPhase = KickPhase.Acceleration) :
    updatePhase st ts = stepAcceleration (applyDominantFoot st) ts := by
  unfold updatePhase
  rw [if_neg hknown]
  have h : (applyDominantFoot st).currentPhase = KickPhase.Acceleration := hphase
  rw [h]

theorem updatePhase_contact (st : KickDetectorState) (ts : ℕ)
    (hknown : (applyDominantFoot st).dominantFoot ≠ DominantFoot.Unknown)
    (hphase : st.currentPhase = KickPhase.Contact) :
    updatePhase st ts = stepContact (applyDominantFoot st) ts := by
  unfold updatePhase
  rw [if_neg hknown]
  have h : (applyDominantFoot st).currentPhase = KickPhase.Contact := hphase
  rw [h]

theorem updatePhase_followThrough (st : KickDetectorState) (ts : ℕ)
    (hknown : (applyDominantFoot st).dominantFoot ≠ DominantFoot.Unknown)
    (hphase : st.currentPhase = KickPhase.FollowThrough) :
    updatePhase st ts = stepFollowThrough (applyDominantFoot st) ts := by
  unfold updatePhase
  rw [if_neg hknown]
  have h : (applyDominantFoot st).currentPhase = KickPhase.FollowThrough := hphase
  rw [h]

theorem getCurrentSpeedSq_nonneg (h : MotionHistory) : 0 ≤ getCurrentSpeedSq h :=
  Vec3.magSq_nonneg _

/-- `trackPeak` only touches the peak-velocity field. -/
theorem trackPeak_fields (st : KickDetectorState) :
    (trackPeak st).getActiveFootHistory = st.getActiveFootHistory ∧
    (trackPeak st).getActiveAnkleHistory = st.getActiveAnkleHistory ∧
    (trackPeak st).phaseStartTime = st.phaseStartTime ∧
    (trackPeak st).currentPhase = st.currentPhase := by
  unfold trackPeak
  by_cases hpk : st.peakVelocitySq < getCurrentSpeedSq st.getActiveFootHistory
  · rw [if_pos hpk]
    exact ⟨rfl, rfl, rfl, rfl⟩
  · rw [if_neg hpk]
    exact ⟨rfl, rfl, rfl, rfl⟩

theorem previousSpeedSq_nonneg (h : MotionHistory) : 0 ≤ previousSpeedSq h := by
  unfold previousSpeedSq
  cases getVelocityBack h 1 with
  | none => exact le_refl 0
  | some v => exact v.magSq_nonneg

/-- The squared-magnitude comparisons of `detectContact` agree with the
source's real-speed comparisons: contact is detected iff the foot history
has enough data, the previous sample's speed exceeds
`VELOCITY_ACCELERATION * 0.8 = 1.6` and the current speed is below `0.7`
times the previous speed. -/
theorem detectContact_iff_real (ankle foot : MotionHistory) :
    detectContact ankle foot = true ↔
      (hasEnoughData foot = true ∧
        (8 / 5 : ℝ) < Real.sqrt ((previousSpeedSq foot : ℚ) : ℝ) ∧
        Real.sqrt ((getCurrentSpeedSq foot : ℚ) : ℝ) <
          Real.sqrt ((previousSpeedSq foot : ℚ) : ℝ) * (7 / 10)) := by
  have h1 : (VELOCITY_ACCELERATION * (8 / 10)) * (VELOCITY_ACCELERATION * (8 / 10))
      < previousSpeedSq foot ↔
      (8 / 5 : ℝ) < Real.sqrt ((previousSpeedSq foot : ℚ) : ℝ) := by
    rw [sqrt_gt_iff_sq (by norm_num : (0:ℝ) ≤ 8 / 5)]
    rw [show ((8 : ℝ) / 5) * (8 / 5) = (((8 / 5 : ℚ) * (8 / 5 : ℚ) : ℚ) : ℝ) from by
      push_cast; ring]
    rw [Rat.cast_lt]
    constructor <;> intro h <;> · norm_num [VELOCITY_ACCELERATION] at h ⊢; linarith
  have h2 : 100 * getCurrentSpeedSq foot < 49 * previousSpeedSq foot ↔
      Real.sqrt ((getCurrentSpeedSq foot : ℚ) : ℝ) <
        Real.sqrt ((previousSpeedSq foot : ℚ) : ℝ) * (7 / 10) := by
    rw [sqrt_lt_frac_sqrt_iff (by exact_mod_cast getCurrentSpeedSq_nonneg foot)]
    constructor <;> intro h <;> exact_mod_cast h
  unfold detectContact
  simp only [Bool.and_eq_true, decide_eq_true_eq, and_assoc]
  rw [h1, h2]

/-- C2 (amended): a frame processed in the Acceleration phase with the
minimum 0.1 s dwell elapsed transitions to Contact if and only if the active
foot history has at least 3 samples and the current foot speed is below 0.7×
the immediately preceding sample's speed and the preceding sample's speed
exceeded `0.8 × VELOCITY_ACCELERATION = 1.6 m/s` (not the full 2.0 m/s
acceleration threshold, see the counterexample). -/
theorem C2_contact_transition (st : KickDetectorState) (ts : ℕ)
    (hphase : st.currentPhase = KickPhase.Acceleration)
    (hknown : (applyDominantFoot st).dominantFoot ≠ DominantFoot.Unknown)
    (hdwell : MIN_ACCELERATION_TIME ≤ usub64 ts st.phaseStartTime) :
    (updatePhase st ts).1.currentPhase = KickPhase.Contact ↔
      (hasEnoughData (applyDominantFoot st).getActiveFootHistory = true ∧
        (8 / 5 : ℝ) <
          Real.sqrt ((previousSpeedSq (applyDominantFoot st).getActiveFootHistory : ℚ) : ℝ) ∧
        Real.sqrt ((getCurrentSpeedSq (applyDominantFoot st).getActiveFootHistory : ℚ) : ℝ) <
          Real.sqrt ((previousSpeedSq (applyDominantFoot st).getActiveFootHistory : ℚ) : ℝ)
            * (7 / 10)) := by
  rw [updatePhase_acceleration st ts hknown hphase,
    ← detectContact_iff_real (applyDominantFoot st).getActiveAnkleHistory]
  set st1 := applyDominantFoot st with hst1
  obtain ⟨hf, ha, hp, hc⟩ := trackPeak_fields st1
  unfold stepAcceleration
  rw [hf, ha, hp]
  by_cases hdet : detectContact st1.getActiveAnkleHistory st1.getActiveFootHistory = true
  · rw [if_pos ⟨hdwell, hdet⟩]
    exact iff_of_true rfl hdet
  · rw [if_neg (fun hcond => hdet hcond.2)]
    refine iff_of_false ?_ hdet
    intro hx
    have h1 : (trackPeak st1).currentPhase = KickPhase.Acceleration := by
      rw [hc]; exact hphase
    rw [h1] at hx
    exact KickPhase.noConfusion hx

theorem footHist2_eq :
    footHist2 = [⟨⟨0, 0, 0⟩, ⟨0, 0, 0⟩, 0, 1⟩,
      ⟨⟨0, 0, 9/5⟩, ⟨0, 0, 9/5⟩, 1000000, 1⟩,
      ⟨⟨0, 0, 14/5⟩, ⟨0, 0, 1⟩, 2000000, 1⟩] := by
  norm_num [footHist2, addFrame, nextFrame, calculateVelocity, usub64, U64,
    MIN_CONFIDENCE, MAX_HISTORY, Vec3.sub, Vec3.scale, Vec3.zero]

theorem st2_applyDominantFoot : applyDominantFoot st2 = st2 := by
  norm_num [applyDominantFoot, updateDominantFoot, st2, footHist2_eq,
    getCurrentSpeedSq, getCurrentVelocity, Vec3.magSq, Vec3.zero]

/-- C2 counterexample: processing a frame of `st2` in the Acceleration phase
with the 0.1 s dwell met transitions to Contact although the preceding
sample's speed is 1.8 m/s, *below* the 2.0 m/s acceleration threshold the
claim requires — the code's actual cutoff is `0.8 × 2.0 = 1.6`. -/
theorem C2_counterexample :
    (updatePhase st2 2000000).1.currentPhase = KickPhase.Contact ∧
    MIN_ACCELERATION_TIME ≤ usub64 2000000 st2.phaseStartTime ∧
    Real.sqrt ((previousSpeedSq (applyDominantFoot st2).getActiveFootHistory : ℚ) : ℝ)
      < 2 := by
  have hprev2 : previousSpeedSq st2.getActiveFootHistory = 81/25 := by
    simp [previousSpeedSq, getVelocityBack, st2, footHist2_eq,
      KickDetectorState.getActiveFootHistory, Vec3.magSq]
    norm_num
  have hprev : previousSpeedSq (applyDominantFoot st2).getActiveFootHistory = 81/25 := by
    rw [st2_applyDominantFoot]
    exact hprev2
  have hdet : detectContact st2.getActiveAnkleHistory st2.getActiveFootHistory = true := by
    unfold detectContact
    simp only [Bool.and_eq_true, decide_eq_true_eq]
    refine ⟨⟨?_, ?_⟩, ?_⟩
    · simp [hasEnoughData, st2, footHist2_eq, KickDetectorState.getActiveFootHistory]
    · rw [hprev2]
      norm_num [VELOCITY_ACCELERATION]
    · rw [hprev2]
      simp [getCurrentSpeedSq, getCurrentVelocity, st2, footHist2_eq,
        KickDetectorState.getActiveFootHistory, Vec3.magSq]
      norm_num
  refine ⟨?_, by decide, ?_⟩
  · rw [updatePhase_acceleration st2 2000000
      (by rw [st2_applyDominantFoot]; decide) rfl, st2_applyDominantFoot]
    unfold stepAcceleration
    rw [if_pos ⟨by rw [(trackPeak_fields st2).2.2.1]; decide,
      by rw [(trackPeak_fields st2).1, (trackPeak_fields st2).2.1]; exact hdet⟩]
  · rw [hprev]
    rw [sqrt_lt_iff_sq (by norm_num : (0:ℝ) < 2)]
    norm_num

/-- Witness for C2 at the concrete state `st2` (all three hypotheses hold
and the transition condition is decided). -/
theorem C2_contact_transition_witness :
    st2.currentPhase = KickPhase.Acceleration ∧
    (applyDominantFoot st2).dominantFoot ≠ DominantFoot.Unknown ∧
    MIN_ACCELERATION_TIME ≤ usub64 2000000 st2.phaseStartTime ∧
    ((updatePhase st2 2000000).1.currentPhase = KickPhase.Contact ↔
      (hasEnoughData (applyDominantFoot st2).getActiveFootHistory = true ∧
        (8 / 5 : ℝ) <
          Real.sqrt ((previousSpeedSq (applyDominantFoot st2).getActiveFootHistory : ℚ) : ℝ) ∧
        Real.sqrt ((getCurrentSpeedSq (applyDominantFoot st2).getActiveFootHistory : ℚ) : ℝ) <
          Real.sqrt ((previousSpeedSq (applyDominantFoot st2).getActiveFootHistory : ℚ) : ℝ)
            * (7 / 10))) :=
  ⟨rfl, by rw [st2_applyDominantFoot]; decide, by decide,
    C2_contact_transition st2 2000000 rfl
      (by rw [st2_applyDominantFoot]; decide) (by decide)⟩

/-- C3 (amended): only the WindUp phase carries a dwell-time cap. In
WindUp, if the acceleration transition does not fire and more than 2 seconds
of timestamps have elapsed, the machine force-resets to Idle, discarding the
in-flight peak-velocity and direction data, and fires no callback. In
Acceleration and in Contact no cap exists: at *any* later timestamp the
machine stays in its phase (emitting nothing) whenever the phase's own
transition condition fails. -/
theorem C3_only_windup_timeout (st : KickDetectorState) (ts : ℕ)
    (hknown : (applyDominantFoot st).dominantFoot ≠ DominantFoot.Unknown) :
    (st.currentPhase = KickPhase.WindUp →
      detectAcceleration (applyDominantFoot st).getActiveAnkleHistory
        (applyDominantFoot st).getActiveFootHistory = false →
      2000000 < usub64 ts st.phaseStartTime →
      (updatePhase st ts).1.currentPhase = KickPhase.Idle ∧
      (updatePhase st ts).1.peakVelocitySq = 0 ∧
      (updatePhase st ts).1.kickDirectionRaw = Vec3.zero ∧
      (updatePhase st ts).2 = []) ∧
    (st.currentPhase = KickPhase.Acceleration →
      detectContact (applyDominantFoot st).getActiveAnkleHistory
        (applyDominantFoot st).getActiveFootHistory = false →
      (updatePhase st ts).1.currentPhase = KickPhase.Acceleration ∧
      (updatePhase st ts).2 = []) ∧
    (st.currentPhase = KickPhase.Contact →
      detectFollowThrough (applyDominantFoot st).getActiveAnkleHistory
        (applyDominantFoot st).getActiveFootHistory = false →
      (updatePhase st ts).1.currentPhase = KickPhase.Contact ∧
      (updatePhase st ts).2 = []) := by
  refine ⟨?_, ?_, ?_⟩
  · intro hphase haccel htimeout
    have hwt : windUpTransition (applyDominantFoot st) ts = applyDominantFoot st := by
      unfold windUpTransition
      rw [if_neg]
      intro hcond
      rw [haccel] at hcond
      exact Bool.false_ne_true hcond.2
    rw [updatePhase_windUp st ts hknown hphase]
    unfold stepWindUp
    rw [hwt, if_pos (show 2000000 < usub64 ts (applyDominantFoot st).phaseStartTime
      from htimeout)]
    exact ⟨rfl, rfl, rfl, rfl⟩
  · intro hphase hcontact
    have hstep : updatePhase st ts = (trackPeak (applyDominantFoot st), []) := by
      rw [updatePhase_acceleration st ts hknown hphase]
      unfold stepAcceleration
      rw [if_neg]
      intro hcond
      have h2 := hcond.2
      rw [(trackPeak_fields (applyDominantFoot st)).1,
        (trackPeak_fields (applyDominantFoot st)).2.1, hcontact] at h2
      exact Bool.false_ne_true h2
    rw [hstep]
    exact ⟨(trackPeak_fields (applyDominantFoot st)).2.2.2.trans hphase, rfl⟩
  · intro hphase hfollow
    rw [updatePhase_contact st ts hknown hphase]
    unfold stepContact
    rw [if_neg (fun hcond => by rw [hfollow] at hcond; exact Bool.false_ne_true hcond)]
    exact ⟨hphase, rfl⟩

theorem st3w_applyDominantFoot : applyDominantFoot st3w = st3w := by
  norm_num [applyDominantFoot, updateDominantFoot, st3w,
    getCurrentSpeedSq, getCurrentVelocity, Vec3.magSq, Vec3.zero]

/-- Witness for C3: the stalled WindUp state at timestamp 2000001 resets to
Idle, clears the in-flight data and fires no callback. -/
theorem C3_only_windup_timeout_witness :
    st3w.currentPhase = KickPhase.WindUp ∧
    detectAcceleration (applyDominantFoot st3w).getActiveAnkleHistory
      (applyDominantFoot st3w).getActiveFootHistory = false ∧
    2000000 < usub64 2000001 st3w.phaseStartTime ∧
    ((updatePhase st3w 2000001).1.currentPhase = KickPhase.Idle ∧
      (updatePhase st3w 2000001).1.peakVelocitySq = 0 ∧
      (updatePhase st3w 2000001).1.kickDirectionRaw = Vec3.zero ∧
      (updatePhase st3w 2000001).2 = []) := by
  have hadf : applyDominantFoot st3w = st3w := st3w_applyDominantFoot
  have hknown : (applyDominantFoot st3w).dominantFoot ≠ DominantFoot.Unknown := by
    rw [hadf]; decide
  have hfalse : detectAcceleration (applyDominantFoot st3w).getActiveAnkleHistory
      (applyDominantFoot st3w).getActiveFootHistory = false := by
    rw [hadf]; rfl
  exact ⟨rfl, hfalse, by decide,
    (C3_only_windup_timeout st3w 2000001 hknown).1 rfl hfalse (by decide)⟩

theorem footHist3_eq :
    footHist3 = [⟨⟨0, 0, 0⟩, ⟨0, 0, 0⟩, 0, 1⟩,
      ⟨⟨0, 0, 3⟩, ⟨0, 0, 3⟩, 1000000, 1⟩,
      ⟨⟨0, 0, 6⟩, ⟨0, 0, 3⟩, 2000000, 1⟩] := by
  norm_num [footHist3, addFrame, nextFrame, calculateVelocity, usub64, U64,
    MIN_CONFIDENCE, MAX_HISTORY, Vec3.sub, Vec3.scale, Vec3.zero]

theorem st3_applyDominantFoot : applyDominantFoot st3 = st3 := by
  norm_num [applyDominantFoot, updateDominantFoot, st3, footHist3_eq,
    getCurrentSpeedSq, getCurrentVelocity, Vec3.magSq, Vec3.zero]

/-- C3 counterexample: 100 seconds (50× the documented 2-second cap) into
the Acceleration phase, a processed frame leaves the machine still in
Acceleration with no reset and no callback — the Acceleration phase has no
dwell-time cap, refuting the claim for "every non-terminal phase". -/
theorem C3_counterexample :
    2000000 < usub64 100000000 st3.phaseStartTime ∧
    (updatePhase st3 100000000).1.currentPhase = KickPhase.Acceleration ∧
    (updatePhase st3 100000000).2 = [] := by
  have hcur : getCurrentSpeedSq st3.getActiveFootHistory = 9 := by
    simp [getCurrentSpeedSq, getCurrentVelocity, st3, footHist3_eq,
      KickDetectorState.getActiveFootHistory, Vec3.magSq]
    norm_num
  have hprev : previousSpeedSq st3.getActiveFootHistory = 9 := by
    simp [previousSpeedSq, getVelocityBack, st3, footHist3_eq,
      KickDetectorState.getActiveFootHistory, Vec3.magSq]
    norm_num
  have hdet : detectContact st3.getActiveAnkleHistory st3.getActiveFootHistory
      = false := by
    unfold detectContact
    have hc : ¬ (100 * getCurrentSpeedSq st3.getActiveFootHistory <
        49 * previousSpeedSq st3.getActiveFootHistory) := by
      rw [hcur, hprev]; norm_num
    simp [hc]
  have hstep : updatePhase st3 100000000 = (trackPeak st3, []) := by
    rw [updatePhase_acceleration st3 100000000 (by rw [st3_applyDominantFoot]; decide)
      rfl, st3_applyDominantFoot]
    unfold stepAcceleration
    rw [if_neg]
    intro hcond
    have h2 := hcond.2
    rw [(trackPeak_fields st3).1, (trackPeak_fields st3).2.1, hdet] at h2
    exact Bool.false_ne_true h2
  exact ⟨by decide, by rw [hstep]; exact (trackPeak_fields st3).2.2.2, by rw [hstep]⟩

/-- `normalize` is the identity on unit vectors. -/
theorem normalize_of_unit {v : Vec3R} (h : v.x * v.x + v.y * v.y + v.z * v.z = 1) :
    v.normalize = v := by
  unfold Vec3R.normalize Vec3R.mag
  rw [h, Real.sqrt_one, if_neg (by norm_num)]
  simp

theorem kneeAngle_skelBent :
    KickAnalyzer.calculateKneeAngle skelBent DominantFoot.Right =
      Real.arccos 0 * (180 / PI_F) := by
  unfold KickAnalyzer.calculateKneeAngle KickAnalyzer.activeHip
    KickAnalyzer.activeKnee KickAnalyzer.activeAnkle
  rw [if_neg (by decide), if_neg (by decide), if_neg (by decide)]
  have hsub1 : Vec3R.sub (Vec3.toR skelBent.hipRight.position)
      (Vec3.toR skelBent.kneeRight.position) = ⟨0, 1, 0⟩ := by
    simp [skelBent, Vec3.toR, Vec3R.sub]
  have hsub2 : Vec3R.sub (Vec3.toR skelBent.ankleRight.position)
      (Vec3.toR skelBent.kneeRight.position) = ⟨1, 0, 0⟩ := by
    simp [skelBent, Vec3.toR, Vec3R.sub]
  unfold calculateJointAngle
  rw [hsub1, hsub2, normalize_of_unit (by norm_num), normalize_of_unit (by norm_num)]
  have hdot : Vec3R.dot ⟨0, 1, 0⟩ ⟨1, 0, 0⟩ = 0 := by
    unfold Vec3R.dot; norm_num
  simp only [hdot]
  norm_num

/-- The 90° angle, converted with the source's `180/3.14159265359` factor,
is below the 120° side-foot cutoff. -/
theorem angle_right_lt_120 : Real.arccos 0 * (180 / PI_F) < 120 := by
  rw [Real.arccos_zero]
  have hc : (0 : ℝ) < PI_F := by norm_num [PI_F]
  rw [show Real.pi / 2 * (180 / PI_F) = Real.pi * 90 / PI_F from by ring,
    div_lt_iff₀ hc]
  simp only [PI_F]
  nlinarith [Real.pi_lt_d2]

/-- The 180° angle of a fully straight leg, converted with the source's
`180/3.14159265359` factor, exceeds the 160° instep cutoff. -/
theorem angle_straight_gt_160 : 160 < Real.arccos (-1) * (180 / PI_F) := by
  rw [Real.arccos_neg_one]
  have hc : (0 : ℝ) < PI_F := by norm_num [PI_F]
  rw [show Real.pi * (180 / PI_F) = Real.pi * 180 / PI_F from by ring,
    lt_div_iff₀ hc]
  simp only [PI_F]
  nlinarith [Real.pi_gt_d6]

/-- On the bent-knee skeleton the classifier yields the side-foot pass
category regardless of the foot history. -/
theorem classify_skelBent (footHistory kneeHistory : MotionHistory) :
    KickAnalyzer.classifyKickType skelBent footHistory kneeHistory
      DominantFoot.Right = KickType.SideFootPass := by
  have hka := kneeAngle_skelBent
  have hlt := angle_right_lt_120
  unfold KickAnalyzer.classifyKickType
  rw [hka]
  rw [if_neg (fun hcond => by
    have h160 := hcond.1
    linarith)]
  rw [if_pos hlt]

theorem st1c_applyDominantFoot : applyDominantFoot st1c = st1c := by
  norm_num [applyDominantFoot, updateDominantFoot, st1c,
    getCurrentSpeedSq, getCurrentVelocity, Vec3.magSq, Vec3.zero]

/-- C1 (amended): when the phase machine is in FollowThrough, the 0.3 s
dwell has elapsed and a callback is registered, one step invokes the
callback exactly once and resets the machine; but the delivered result is
the *basic* one `completeKick` builds from the detector state — type fixed
to `Instep`, quality carrying only the peak foot velocity and `peak × 3.6`
ball speed (all scores left at their zero defaults) — not the output of
`KickAnalyzer::analyzeKick`, which the completion path never calls. -/
theorem C1_completion_delivers_basic_result (st : KickDetectorState) (ts : ℕ)
    (hphase : st.currentPhase = KickPhase.FollowThrough)
    (hknown : (applyDominantFoot st).dominantFoot ≠ DominantFoot.Unknown)
    (hdwell : 300000 < usub64 ts st.phaseStartTime)
    (hcb : st.callbackSet = true) :
    updatePhase st ts =
      (reset (applyDominantFoot st), [mkKickEvent (applyDominantFoot st)]) ∧
    (deliveredResult (mkKickEvent (applyDominantFoot st))).type = KickType.Instep ∧
    (deliveredResult (mkKickEvent (applyDominantFoot st))).quality.footVelocity =
      Real.sqrt st.peakVelocitySq ∧
    (deliveredResult (mkKickEvent (applyDominantFoot st))).quality.estimatedBallSpeed =
      Real.sqrt st.peakVelocitySq * 3.6 ∧
    (deliveredResult (mkKickEvent (applyDominantFoot st))).quality.powerScore = 0 ∧
    (deliveredResult (mkKickEvent (applyDominantFoot st))).quality.overallScore = 0 ∧
    (deliveredResult (mkKickEvent (applyDominantFoot st))).timestamp =
      st.currentTimestamp := by
  refine ⟨?_, rfl, rfl, rfl, rfl, rfl, rfl⟩
  rw [updatePhase_followThrough st ts hknown hphase]
  unfold stepFollowThrough
  rw [if_pos (show 300000 < usub64 ts (applyDominantFoot st).phaseStartTime
    from hdwell)]
  unfold completeKick
  rw [if_pos (show (applyDominantFoot st).callbackSet = true from hcb)]

/-- Witness for C1 at the concrete state `st1c`. -/
theorem C1_completion_delivers_basic_result_witness :
    st1c.currentPhase = KickPhase.FollowThrough ∧
    300000 < usub64 1000001 st1c.phaseStartTime ∧
    st1c.callbackSet = true ∧
    updatePhase st1c 1000001 =
      (reset (applyDominantFoot st1c), [mkKickEvent (applyDominantFoot st1c)]) := by
  have hknown : (applyDominantFoot st1c).dominantFoot ≠ DominantFoot.Unknown := by
    rw [st1c_applyDominantFoot]; decide
  exact ⟨rfl, by decide, rfl,
    (C1_completion_delivers_basic_result st1c 1000001 rfl hknown (by decide) rfl).1⟩

/-- C1 counterexample: at the concrete completed kick `st1c` the callback
fires exactly once, but the `KickResult` it receives (type `Instep`, the
`completeKick` default) differs from the result
`KickAnalyzer::analyzeKick` computes from the same joint histories and
skeleton snapshot (type `SideFootPass` for the bent-knee skeleton) — the
delivered result is not the Action Analyzer's classified, scored result. -/
theorem C1_counterexample :
    (updatePhase st1c 1000001).2 = [mkKickEvent st1c] ∧
    (deliveredResult (mkKickEvent st1c)).type = KickType.Instep ∧
    (KickAnalyzer.analyzeKick TargetZone.default st1c.currentSkeleton
      st1c.rightAnkleHistory st1c.rightFootHistory st1c.rightKneeHistory
      st1c.rightHipHistory st1c.pelvisHistory DominantFoot.Right
      st1c.currentTimestamp).type = KickType.SideFootPass ∧
    deliveredResult (mkKickEvent st1c) ≠
      KickAnalyzer.analyzeKick TargetZone.default st1c.currentSkeleton
        st1c.rightAnkleHistory st1c.rightFootHistory st1c.rightKneeHistory
        st1c.rightHipHistory st1c.pelvisHistory DominantFoot.Right
        st1c.currentTimestamp := by
  have htype : (KickAnalyzer.analyzeKick TargetZone.default st1c.currentSkeleton
      st1c.rightAnkleHistory st1c.rightFootHistory st1c.rightKneeHistory
      st1c.rightHipHistory st1c.pelvisHistory DominantFoot.Right
      st1c.currentTimestamp).type = KickType.SideFootPass := by
    show KickAnalyzer.classifyKickType st1c.currentSkeleton st1c.rightFootHistory
      st1c.rightKneeHistory DominantFoot.Right = KickType.SideFootPass
    exact classify_skelBent st1c.rightFootHistory st1c.rightKneeHistory
  refine ⟨?_, rfl, htype, ?_⟩
  · rw [updatePhase_followThrough st1c 1000001
      (by rw [st1c_applyDominantFoot]; decide) rfl, st1c_applyDominantFoot]
    unfold stepFollowThrough
    rw [if_pos (by decide : 300000 < usub64 1000001 st1c.phaseStartTime)]
    unfold completeKick
    rw [if_pos (show st1c.callbackSet = true by rfl)]
  · intro heq
    have hty := congrArg KickResult.type heq
    rw [htype] at hty
    exact KickType.noConfusion hty

theorem clamp01_bounds (x : ℝ) : 0 ≤ max 0 (min 100 x) ∧ max 0 (min 100 x) ≤ 100 :=
  ⟨le_max_left 0 _, max_le (by norm_num) (min_le_left _ _)⟩

theorem calculatePowerScore_bounds {b : ℝ} (hb : 0 ≤ b) :
    0 ≤ KickAnalyzer.calculatePowerScore b ∧ KickAnalyzer.calculatePowerScore b ≤ 100 := by
  unfold KickAnalyzer.calculatePowerScore KickAnalyzer.MAX_BALL_SPEED_KMH
  exact ⟨le_min (by norm_num) (by positivity), min_le_left _ _⟩

theorem calculateAccuracyScore_bounds (d : ℝ) :
    0 ≤ KickAnalyzer.calculateAccuracyScore d ∧
      KickAnalyzer.calculateAccuracyScore d ≤ 100 := by
  unfold KickAnalyzer.calculateAccuracyScore
  exact clamp01_bounds _

theorem calculateBalanceScore_bounds (l : ℝ) :
    0 ≤ KickAnalyzer.calculateBalanceScore l ∧
      KickAnalyzer.calculateBalanceScore l ≤ 100 := by
  unfold KickAnalyzer.calculateBalanceScore
  exact clamp01_bounds _

theorem calculateTechniqueScore_bounds (k h f : ℝ) :
    0 ≤ KickAnalyzer.calculateTechniqueScore k h f ∧
      KickAnalyzer.calculateTechniqueScore k h f ≤ 100 := by
  unfold KickAnalyzer.calculateTechniqueScore
  obtain ⟨h1a, h1b⟩ := clamp01_bounds
    (100 - |k - KickAnalyzer.IDEAL_KNEE_ANGLE| / KickAnalyzer.IDEAL_KNEE_ANGLE * 100)
  obtain ⟨h2a, h2b⟩ := clamp01_bounds (h / KickAnalyzer.MAX_HIP_ROTATION * 100)
  obtain ⟨h3a, h3b⟩ := clamp01_bounds (f / 1 * 100)
  constructor <;> nlinarith

theorem calculateOverallScore_bounds (q : KickQuality)
    (hp : 0 ≤ q.powerScore ∧ q.powerScore ≤ 100)
    (ha : 0 ≤ q.accuracyScore ∧ q.accuracyScore ≤ 100)
    (ht : 0 ≤ q.techniqueScore ∧ q.techniqueScore ≤ 100)
    (hb : 0 ≤ q.balanceScore ∧ q.balanceScore ≤ 100) :
    0 ≤ KickAnalyzer.calculateOverallScore q ∧
      KickAnalyzer.calculateOverallScore q ≤ 100 := by
  unfold KickAnalyzer.calculateOverallScore KickAnalyzer.POWER_WEIGHT
    KickAnalyzer.ACCURACY_WEIGHT KickAnalyzer.TECHNIQUE_WEIGHT
    KickAnalyzer.BALANCE_WEIGHT
  obtain ⟨hp1, hp2⟩ := hp
  obtain ⟨ha1, ha2⟩ := ha
  obtain ⟨ht1, ht2⟩ := ht
  obtain ⟨hb1, hb2⟩ := hb
  constructor <;> nlinarith

/-- The overall score `analyzeKick` stores is `calculateOverallScore` of the
quality record it returns (that function does not read the overall field). -/
theorem analyzeKick_overallScore_eq (target : TargetZone) (skel : Skeleton)
    (aH fH kH hH pH : MotionHistory) (foot : DominantFoot) (ts : ℕ) :
    (KickAnalyzer.analyzeKick target skel aH fH kH hH pH foot ts).quality.overallScore =
      KickAnalyzer.calculateOverallScore
        (KickAnalyzer.analyzeKick target skel aH fH kH hH pH foot ts).quality := rfl

theorem analyzeKick_overall_bounds (target : TargetZone) (skel : Skeleton)
    (aH fH kH hH pH : MotionHistory) (foot : DominantFoot) (ts : ℕ) :
    0 ≤ (KickAnalyzer.analyzeKick target skel aH fH kH hH pH foot ts).quality.overallScore ∧
      (KickAnalyzer.analyzeKick target skel aH fH kH hH pH foot ts).quality.overallScore
        ≤ 100 := by
  rw [analyzeKick_overallScore_eq]
  have hfv : (0 : ℝ) ≤ getPeakSpeedR fH := Real.sqrt_nonneg _
  have hball : (0 : ℝ) ≤ KickAnalyzer.calculateEstimatedBallSpeed (getPeakSpeedR fH) := by
    unfold KickAnalyzer.calculateEstimatedBallSpeed
    have h1 : (0 : ℝ) ≤ (1.25 : ℝ) := by norm_num
    have h2 : (0 : ℝ) ≤ (3.6 : ℝ) := by norm_num
    exact mul_nonneg (mul_nonneg hfv h1) h2
  exact calculateOverallScore_bounds _
    (calculatePowerScore_bounds hball)
    (calculateAccuracyScore_bounds _)
    (calculateTechniqueScore_bounds _ _ _)
    (calculateBalanceScore_bounds _)

/-- C4: the overall score is the fixed weighted sum
`0.30·power + 0.25·accuracy + 0.25·technique + 0.20·balance`; the four
weights sum to 1; every result of `analyzeKick` has an overall score in
`[0,100]`; and sub-scores 80/60/40/100 yield 69. -/
theorem C4_overall_weighted_sum (q : KickQuality)
    (hp : 0 ≤ q.powerScore ∧ q.powerScore ≤ 100)
    (ha : 0 ≤ q.accuracyScore ∧ q.accuracyScore ≤ 100)
    (ht : 0 ≤ q.techniqueScore ∧ q.techniqueScore ≤ 100)
    (hb : 0 ≤ q.balanceScore ∧ q.balanceScore ≤ 100)
    (target : TargetZone) (skel : Skeleton) (aH fH kH hH pH : MotionHistory)
    (foot : DominantFoot) (ts : ℕ) :
    KickAnalyzer.calculateOverallScore q =
      q.powerScore * 0.30 + q.accuracyScore * 0.25 +
        q.techniqueScore * 0.25 + q.balanceScore * 0.20 ∧
    KickAnalyzer.POWER_WEIGHT + KickAnalyzer.ACCURACY_WEIGHT +
      KickAnalyzer.TECHNIQUE_WEIGHT + KickAnalyzer.BALANCE_WEIGHT = 1 ∧
    (0 ≤ (KickAnalyzer.analyzeKick target skel aH fH kH hH pH foot ts).quality.overallScore ∧
      (KickAnalyzer.analyzeKick target skel aH fH kH hH pH foot ts).quality.overallScore
        ≤ 100) ∧
    KickAnalyzer.calculateOverallScore
      { KickQuality.default with
          powerScore := 80, accuracyScore := 60,
          techniqueScore := 40, balanceScore := 100 } = 69 := by
  refine ⟨rfl, ?_, analyzeKick_overall_bounds target skel aH fH kH hH pH foot ts, ?_⟩
  · norm_num [KickAnalyzer.POWER_WEIGHT, KickAnalyzer.ACCURACY_WEIGHT,
      KickAnalyzer.TECHNIQUE_WEIGHT, KickAnalyzer.BALANCE_WEIGHT]
  · norm_num [KickAnalyzer.calculateOverallScore, KickAnalyzer.POWER_WEIGHT,
      KickAnalyzer.ACCURACY_WEIGHT, KickAnalyzer.TECHNIQUE_WEIGHT,
      KickAnalyzer.BALANCE_WEIGHT, KickQuality.default]

/-- Witness for C4 at the spec's 80/60/40/100 example and trivial analyzer
inputs. -/
theorem C4_overall_weighted_sum_witness :
    KickAnalyzer.calculateOverallScore
      { KickQuality.default with
          powerScore := 80, accuracyScore := 60,
          techniqueScore := 40, balanceScore := 100 } =
      (80 : ℝ) * 0.30 + 60 * 0.25 + 40 * 0.25 + 100 * 0.20 ∧
    KickAnalyzer.POWER_WEIGHT + KickAnalyzer.ACCURACY_WEIGHT +
      KickAnalyzer.TECHNIQUE_WEIGHT + KickAnalyzer.BALANCE_WEIGHT = 1 ∧
    (0 ≤ (KickAnalyzer.analyzeKick TargetZone.default Skeleton.zero [] [] [] [] []
        DominantFoot.Right 0).quality.overallScore ∧
      (KickAnalyzer.analyzeKick TargetZone.default Skeleton.zero [] [] [] [] []
        DominantFoot.Right 0).quality.overallScore ≤ 100) := by
  obtain ⟨h1, h2, h3, _⟩ := C4_overall_weighted_sum
    { KickQuality.default with
        powerScore := 80, accuracyScore := 60,
        techniqueScore := 40, balanceScore := 100 }
    (by norm_num [KickQuality.default]) (by norm_num [KickQuality.default])
    (by norm_num [KickQuality.default]) (by norm_num [KickQuality.default])
    TargetZone.default Skeleton.zero [] [] [] [] [] DominantFoot.Right 0
  exact ⟨h1, h2, h3⟩

theorem kneeAngle_skelStraight :
    KickAnalyzer.calculateKneeAngle skelStraight DominantFoot.Right =
      Real.arccos (-1) * (180 / PI_F) := by
  unfold KickAnalyzer.calculateKneeAngle KickAnalyzer.activeHip
    KickAnalyzer.activeKnee KickAnalyzer.activeAnkle
  rw [if_neg (by decide), if_neg (by decide), if_neg (by decide)]
  have hsub1 : Vec3R.sub (Vec3.toR skelStraight.hipRight.position)
      (Vec3.toR skelStraight.kneeRight.position) = ⟨0, 1, 0⟩ := by
    simp [skelStraight, Vec3.toR, Vec3R.sub]
  have hsub2 : Vec3R.sub (Vec3.toR skelStraight.ankleRight.position)
      (Vec3.toR skelStraight.kneeRight.position) = ⟨0, -1, 0⟩ := by
    simp [skelStraight, Vec3.toR, Vec3R.sub]
  unfold calculateJointAngle
  rw [hsub1, hsub2, normalize_of_unit (by norm_num), normalize_of_unit (by norm_num)]
  have hdot : Vec3R.dot ⟨0, 1, 0⟩ ⟨0, -1, 0⟩ = -1 := by
    unfold Vec3R.dot; norm_num
  simp only [hdot]
  norm_num

/-- C5 (amended): a knee angle above 160° together with a peak foot speed
above 3 m/s (not the 2 m/s acceleration threshold) classifies as the
power/instep kick; a knee angle below 120° classifies as the side-foot
pass. -/
theorem C5_classification (skel : Skeleton) (fH kH : MotionHistory)
    (foot : DominantFoot) :
    (160 < KickAnalyzer.calculateKneeAngle skel foot →
      3 < getPeakSpeedR fH →
      KickAnalyzer.classifyKickType skel fH kH foot = KickType.Instep) ∧
    (KickAnalyzer.calculateKneeAngle skel foot < 120 →
      KickAnalyzer.classifyKickType skel fH kH foot = KickType.SideFootPass) := by
  constructor
  · intro h160 hpeak
    unfold KickAnalyzer.classifyKickType
    rw [if_pos ⟨h160, hpeak⟩]
  · intro hlt
    unfold KickAnalyzer.classifyKickType
    rw [if_neg (fun hcond => by have := hcond.1; linarith), if_pos hlt]

theorem histFast_eq :
    histFast = [⟨⟨0, 0, 0⟩, ⟨0, 0, 0⟩, 0, 1⟩,
      ⟨⟨0, 0, 4⟩, ⟨0, 0, 4⟩, 1000000, 1⟩] := by
  norm_num [histFast, addFrame, nextFrame, calculateVelocity, usub64, U64,
    MIN_CONFIDENCE, MAX_HISTORY, Vec3.sub, Vec3.scale, Vec3.zero]

theorem getPeakSpeedR_histFast : getPeakSpeedR histFast = 4 := by
  have hsq : getPeakSpeedSq histFast = 16 := by
    rw [histFast_eq]
    simp [getPeakSpeedSq, Vec3.magSq]
    norm_num
  unfold getPeakSpeedR
  rw [hsq, show ((16 : ℚ) : ℝ) = (4 : ℝ) ^ 2 from by norm_num,
    Real.sqrt_sq (by norm_num : (0:ℝ) ≤ 4)]

/-- Witness for C5: the straight-leg skeleton with a 4 m/s peak yields
`Instep`; the bent-knee skeleton yields `SideFootPass`. -/
theorem C5_classification_witness :
    160 < KickAnalyzer.calculateKneeAngle skelStraight DominantFoot.Right ∧
    (3 : ℝ) < getPeakSpeedR histFast ∧
    KickAnalyzer.classifyKickType skelStraight histFast [] DominantFoot.Right =
      KickType.Instep ∧
    KickAnalyzer.calculateKneeAngle skelBent DominantFoot.Right < 120 ∧
    KickAnalyzer.classifyKickType skelBent [] [] DominantFoot.Right =
      KickType.SideFootPass := by
  have h160 : 160 < KickAnalyzer.calculateKneeAngle skelStraight DominantFoot.Right := by
    rw [kneeAngle_skelStraight]; exact angle_straight_gt_160
  have hpeak : (3 : ℝ) < getPeakSpeedR histFast := by
    rw [getPeakSpeedR_histFast]; norm_num
  have h120 : KickAnalyzer.calculateKneeAngle skelBent DominantFoot.Right < 120 := by
    rw [kneeAngle_skelBent]; exact angle_right_lt_120
  exact ⟨h160, hpeak,
    (C5_classification skelStraight histFast [] DominantFoot.Right).1 h160 hpeak,
    h120, (C5_classification skelBent [] [] DominantFoot.Right).2 h120⟩

theorem histLateral_eq :
    histLateral = [⟨⟨0, 0, 0⟩, ⟨0, 0, 0⟩, 0, 1⟩,
      ⟨⟨5/2, 0, 0⟩, ⟨5/2, 0, 0⟩, 1000000, 1⟩] := by
  norm_num [histLateral, addFrame, nextFrame, calculateVelocity, usub64, U64,
    MIN_CONFIDENCE, MAX_HISTORY, Vec3.sub, Vec3.scale, Vec3.zero]

theorem getPeakSpeedR_histLateral : getPeakSpeedR histLateral = 5/2 := by
  have hsq : getPeakSpeedSq histLateral = 25/4 := by
    rw [histLateral_eq]
    simp [getPeakSpeedSq, Vec3.magSq]
    norm_num
  unfold getPeakSpeedR
  rw [hsq, show ((25/4 : ℚ) : ℝ) = (5/2 : ℝ) ^ 2 from by norm_num,
    Real.sqrt_sq (by norm_num : (0:ℝ) ≤ 5/2)]

/-- C5 counterexample: a fully straight leg (knee angle above 160°, exactly
colinear joints) with peak foot speed 2.5 m/s — above the 2.0 m/s
acceleration threshold the claim names — classifies as `Outside`, not the
power/instep category: the classifier's speed cutoff is 3.0 m/s. -/
theorem C5_counterexample :
    160 < KickAnalyzer.calculateKneeAngle skelStraight DominantFoot.Right ∧
    (2 : ℝ) < getPeakSpeedR histLateral ∧
    KickAnalyzer.classifyKickType skelStraight histLateral [] DominantFoot.Right =
      KickType.Outside := by
  have hka := kneeAngle_skelStraight
  have h160 : 160 < KickAnalyzer.calculateKneeAngle skelStraight DominantFoot.Right := by
    rw [hka]; exact angle_straight_gt_160
  have hpeak := getPeakSpeedR_histLateral
  have hvel : getCurrentVelocity histLateral = ⟨5/2, 0, 0⟩ := by
    rw [histLateral_eq]
    simp [getCurrentVelocity]
  refine ⟨h160, by rw [hpeak]; norm_num, ?_⟩
  unfold KickAnalyzer.classifyKickType
  rw [hpeak]
  rw [if_neg (fun hcond => by have := hcond.2; norm_num at this)]
  rw [if_neg (by intro hlt; linarith)]
  rw [hvel]
  rw [if_pos (by norm_num)]

/-- Witness for C10: on a one-sample history, `getAverageVelocity 0` reaches
the scaling division with divisor `min 0 1 = 0`. -/
theorem C10_average_divisor_witness :
    (([⟨⟨1, 2, 3⟩, ⟨4, 5, 6⟩, 7, 1⟩] : MotionHistory) ≠ []) ∧
    averageVelocityDivisor [⟨⟨1, 2, 3⟩, ⟨4, 5, 6⟩, 7, 1⟩] 0 =
      some (min 0 (List.length ([⟨⟨1, 2, 3⟩, ⟨4, 5, 6⟩, 7, 1⟩] : MotionHistory))) ∧
    min 0 (List.length ([⟨⟨1, 2, 3⟩, ⟨4, 5, 6⟩, 7, 1⟩] : MotionHistory)) = 0 :=
  ⟨by simp,
    ((C10_average_divisor [⟨⟨1, 2, 3⟩, ⟨4, 5, 6⟩, 7, 1⟩] 0).2 (by simp)).1,
    by decide⟩

end KinectFootball
